import Mathlib

/-!
Shallow embedding of the `web-for-db` repository: a FastAPI + SQLAlchemy
database dashboard (src/database_manager.py, src/routers/view.py).

The embedding models:
  * the Python string primitives the code relies on (`str.strip()`,
    `str.upper()`, `str.lower()`, `str.split()`, substring containment),
    restricted to the ASCII behaviour the code exercises;
  * the database as an abstract `Engine` (a function from a statement and
    its bound parameters to either a result or a `SQLAlchemyError` message)
    together with a `Session` carrying a committed log, a pending
    (uncommitted) log and a trace of every statement handed to
    `db.execute` ("attempted");
  * the reflected schema metadata (`MetaData.reflect` / `inspect`) as a
    list of table descriptions;
  * each route handler of src/routers/view.py as a Lean function from its
    inputs and a session to a response and the resulting session.

Python exceptions are modelled with `Except`/explicit response
constructors: `HTTPException` becomes `Response.httpError`, an uncaught
exception becomes `Response.pyCrash`, and a `SQLAlchemyError` raised by
the engine is the `Except.error` branch of `Engine`.
-/

namespace WebForDb

/-! ### Python string primitives -/

/-- Whitespace characters recognised by Python `str.split()` / `str.strip()`
(the ASCII ones: space, tab, line feed, carriage return, vertical tab,
form feed). -/
def isSpace (c : Char) : Bool :=
  c.toNat == 32 || c.toNat == 9 || c.toNat == 10 || c.toNat == 13 || c.toNat == 11 || c.toNat == 12

/-- Python `str.upper()` on a single character, ASCII range (the only range
the handlers compare against: SQL keywords and type names are ASCII). -/
def pyUpperChar (c : Char) : Char :=
  if h : 97 ≤ c.toNat ∧ c.toNat ≤ 122 then
    Char.ofNatAux (c.toNat - 32) (Or.inl (by omega))
  else c

/-- Python `str.lower()` on a single character, ASCII range. -/
def pyLowerChar (c : Char) : Char :=
  if h : 65 ≤ c.toNat ∧ c.toNat ≤ 90 then
    Char.ofNatAux (c.toNat + 32) (Or.inl (by omega))
  else c

/-- Python `str.upper()`. -/
def pyUpper (s : String) : String := String.mk (s.toList.map pyUpperChar)

/-- Python `str.lower()`. -/
def pyLower (s : String) : String := String.mk (s.toList.map pyLowerChar)

/-- Python `str.strip()`: drop leading and trailing whitespace. -/
def pyStrip (s : String) : String :=
  String.mk (((s.toList.dropWhile isSpace).reverse.dropWhile isSpace).reverse)

/-- Helper of `pySplit`: splits a character list on whitespace runs, the
accumulator holding the current word reversed. -/
def splitWords : List Char → List Char → List (List Char)
  | [], acc => if acc.isEmpty then [] else [acc.reverse]
  | c :: cs, acc =>
    if isSpace c then
      if acc.isEmpty then splitWords cs [] else acc.reverse :: splitWords cs []
    else splitWords cs (c :: acc)

/-- Python `str.split()` with no argument: split on whitespace runs,
producing no empty words. -/
def pySplit (s : String) : List String := (splitWords s.toList []).map String.mk

/-- Does the list start with the given prefix of characters. -/
def listStartsWith : List Char → List Char → Bool
  | _, [] => true
  | [], _ :: _ => false
  | c :: cs, d :: ds => c == d && listStartsWith cs ds

/-- Does some suffix of the list start with `sub`. -/
def listContains (sub : List Char) : List Char → Bool
  | [] => sub.isEmpty
  | c :: cs => listStartsWith (c :: cs) sub || listContains sub cs

/-- Python substring containment `sub in s`. -/
def pyContains (sub s : String) : Bool := listContains sub.toList s.toList

/-! ### Database model -/

/-- A cell of a result row.  The handlers serialise dates and decimals to
strings/floats before rendering; cells are modelled as the already
serialised text. -/
abbrev Cell := String

/-- The result a successful `db.execute` produces: result columns, fetched
rows, and the affected-row count. -/
structure QueryResult where
  columns : List String
  rows : List (List Cell)
  rowcount : Nat
deriving Repr, DecidableEq

/-- A value bound to a statement parameter.  `null` is Python `None`;
`int`, `num`, `date`, `datetime` are the results of the conversions
`int(...)`, `float(...)`, `date.fromisoformat(...)`,
`datetime.fromisoformat(...)` performed by `add_record`. -/
inductive PValue where
  | null
  | str (s : String)
  | int (n : Int)
  | num (s : String)
  | date (s : String)
  | datetime (s : String)
deriving Repr, DecidableEq

/-- Named parameters bound to a statement (`db.execute(text(q), params)`). -/
abbrev Params := List (String × PValue)

/-- A statement handed to the database: its SQL text and bound parameters. -/
abbrev Stmt := String × Params

/-- The database engine: what `db.execute` does with a statement.
`Except.error msg` models a raised `SQLAlchemyError` with message `msg`. -/
abbrev Engine := Stmt → Except String QueryResult

/-- A SQLAlchemy session: the statements already committed, the statements
executed but not yet committed, and (instrumentation) the trace of every
statement ever passed to `db.execute`. -/
structure Session where
  committedLog : List Stmt
  pendingLog : List Stmt
  attempted : List Stmt
deriving Repr, DecidableEq

/-- Model of `db.execute`: the statement is handed to the engine (and recorded in
`attempted`); on success it joins the pending (uncommitted) work. -/
def Session.exec (eng : Engine) (st : Stmt) (s : Session) :
    Except String QueryResult × Session :=
  match eng st with
  | Except.ok r =>
    (Except.ok r, { s with attempted := s.attempted ++ [st], pendingLog := s.pendingLog ++ [st] })
  | Except.error e =>
    (Except.error e, { s with attempted := s.attempted ++ [st] })

/-- Model of `db.commit`: pending work becomes committed. -/
def Session.commit (s : Session) : Session :=
  { committedLog := s.committedLog ++ s.pendingLog, pendingLog := [], attempted := s.attempted }

/-- Model of `db.rollback`: pending work is discarded. -/
def Session.rollback (s : Session) : Session := { s with pendingLog := [] }

/-! ### Reflected schema metadata -/

/-- The SQLAlchemy column type class, as far as `isinstance` checks in
`add_record` distinguish it. -/
inductive ColType where
  | integer
  | numeric
  | date
  | datetime
  | other
deriving Repr, DecidableEq

/-- A reflected column: its name, `str(column.type)`, its type class, and
the `nullable` / `primary_key` / `default is not None` flags. -/
structure ColumnMeta where
  name : String
  typeName : String
  ctype : ColType
  nullable : Bool
  primary_key : Bool
  hasDefault : Bool
deriving Repr, DecidableEq

/-- A reflected foreign-key constraint, as returned by
`inspector.get_foreign_keys`. -/
structure FKMeta where
  constrained_columns : List String
  referred_table : String
  referred_columns : List String
deriving Repr, DecidableEq

/-- A reflected table. -/
structure TableMeta where
  name : String
  columns : List ColumnMeta
  fks : List FKMeta
deriving Repr, DecidableEq

/-- The reflected schema (`MetaData.reflect` / `inspect(engine)`). -/
abbrev Schema := List TableMeta

/-- Model of `database_manager.get_table_names()`: the names of the reflected
tables. -/
def get_table_names (schema : Schema) : List String := schema.map (fun t => t.name)

/-! ### Responses -/

/-- The template context the handlers render `view.html` with.  Keys a
handler does not put in its context dict are `none`/`[]` here. -/
structure ViewPage where
  tables : List String
  current_table : Option String := none
  current_query : Option String := none
  columns : List String := []
  data : List (List (String × Cell)) := []
  primary_keys : List String := []
  required_columns : List String := []
  message : Option String := none
  message_type : Option String := none
  sql_query : Option String := none
  sql_error : Option String := none
  sql_success : Option String := none
  query_title : Option String := none
deriving Repr, DecidableEq

/-- What a route handler produces: a rendered page, a `RedirectResponse`,
an `HTTPException` (status code and detail), or an uncaught Python
exception propagating out of the handler. -/
inductive Response where
  | page (p : ViewPage)
  | redirect (url : String)
  | httpError (code : Nat) (detail : String)
  | pyCrash (msg : String)
deriving Repr, DecidableEq

/-! ### Shared query helpers (src/routers/view.py) -/

/-- The double-quoted identifier interpolation used by the statement
builders. -/
def quoteId (k : String) : String := "\"" ++ k ++ "\""

/-- Model of `execute_custom_query(query, db)`: run the text, return the result
columns and the rows as column-name/value dictionaries.  A raised
`SQLAlchemyError` propagates to the caller as `Except.error`. -/
def execute_custom_query (eng : Engine) (query : String) (s : Session) :
    Except String (List String × List (List (String × Cell))) × Session :=
  match Session.exec eng (query, []) s with
  | (Except.error e, s1) => (Except.error e, s1)
  | (Except.ok r, s1) =>
    (Except.ok (r.columns, r.rows.map (fun row => r.columns.zip row)), s1)

/-- Model of `get_table_data(table_name, db)`: a SELECT-star on the table with
the table name interpolated into the statement text. -/
def get_table_data (table_name : String) (eng : Engine) (s : Session) :
    Except String (List String × List (List (String × Cell))) × Session :=
  match Session.exec eng ("SELECT * FROM " ++ quoteId table_name, []) s with
  | (Except.error e, s1) => (Except.error e, s1)
  | (Except.ok r, s1) =>
    (Except.ok (r.columns, r.rows.map (fun row => r.columns.zip row)), s1)

/-- The dictionary `get_table_info` returns. -/
structure TableInfoOut where
  primary_keys : List String
  required_columns : List String
  columns : List String
deriving Repr, DecidableEq

/-- Model of `get_table_info(table_name)`: reflect the schema; 404 when the table is
unknown, otherwise the primary-key column names, the names of the
non-nullable default-free columns, and all column names. -/
def get_table_info (schema : Schema) (table_name : String) :
    Except (Nat × String) TableInfoOut :=
  match schema.find? (fun t => t.name == table_name) with
  | none => Except.error (404, "Таблица " ++ table_name ++ " не найдена")
  | some table =>
    Except.ok
      { primary_keys := (table.columns.filter (fun c => c.primary_key)).map (fun c => c.name)
        required_columns :=
          (table.columns.filter (fun c => !c.nullable && !c.hasDefault)).map (fun c => c.name)
        columns := table.columns.map (fun c => c.name) }

/-! ### `/view` (show_tables) -/

/-- Model of `show_tables`: render the table list; query and render the rows of a table
only when `table_name` is truthy (Python: non-`None` and nonempty) and a
member of the reflected table names. -/
def show_tables (schema : Schema) (eng : Engine) (table_name : Option String)
    (message message_type : Option String) (s : Session) : Response × Session :=
  let tables := get_table_names schema
  match table_name with
  | some t =>
    if t ≠ "" ∧ t ∈ tables then
      match get_table_data t eng s with
      | (Except.error e, s1) => (Response.pyCrash e, s1)
      | (Except.ok (columns, data), s1) =>
        match get_table_info schema t with
        | Except.error err => (Response.httpError err.1 err.2, s1)
        | Except.ok info =>
          (Response.page
            { tables := tables, current_table := some t, columns := columns, data := data
              primary_keys := info.primary_keys, required_columns := info.required_columns
              message := message, message_type := message_type }, s1)
    else
      (Response.page
        { tables := tables, current_table := some t, message := message
          message_type := message_type }, s)
  | none =>
    (Response.page
      { tables := tables, current_table := none, message := message
        message_type := message_type }, s)

/-! ### `/execute_sql` -/

/-- The keyword deny-list of `execute_sql`. -/
def dangerous_keywords : List String :=
  ["DROP", "CREATE", "ALTER", "TRUNCATE", "GRANT", "REVOKE"]

/-- The error message construction of the `except SQLAlchemyError` branch
of `execute_sql`: first line of `str(e)`, plus the stripped first line
after `DETAIL:` when present. -/
def formatSqlError (e : String) : String :=
  let first := (e.splitOn "\n").headI
  match e.splitOn "DETAIL:" with
  | _ :: d :: _ => first ++ " Детали: " ++ pyStrip ((d.splitOn "\n").headI)
  | _ => first

/-- The page the `except SQLAlchemyError` branch of `execute_sql` renders. -/
def sqlErrorPage (schema : Schema) (sql_query : String) (e : String) : Response :=
  Response.page
    { tables := get_table_names schema, current_query := some "custom_sql"
      sql_query := some sql_query, sql_error := some (formatSqlError e), sql_success := none }

/-- Model of `execute_sql`: strip the query; reject an empty one; classify by the
first token of the uppercased text; run `SELECT` via
`execute_custom_query`, run DML with a commit, refuse the deny-listed
keywords, and run anything else with a commit.  A `SQLAlchemyError`
anywhere leads to rollback and an error page. -/
def execute_sql (schema : Schema) (eng : Engine) (raw_query : String) (s : Session) :
    Response × Session :=
  let sql_query := pyStrip raw_query
  if sql_query = "" then
    (Response.page
      { tables := get_table_names schema, current_query := some "custom_sql"
        sql_query := some sql_query, sql_error := some "Запрос не может быть пустым"
        sql_success := none }, s)
  else
    let query_type := (pySplit (pyStrip (pyUpper sql_query))).headI
    if query_type = "SELECT" then
      match execute_custom_query eng sql_query s with
      | (Except.ok (columns, data), s1) =>
        (Response.page
          { tables := get_table_names schema, current_query := some "custom_sql"
            columns := columns, data := data, sql_query := some sql_query, sql_error := none
            sql_success :=
              some ("Запрос выполнен успешно. Найдено записей: " ++ toString data.length) }, s1)
      | (Except.error e, s1) => (sqlErrorPage schema sql_query e, s1.rollback)
    else if query_type ∈ ["INSERT", "UPDATE", "DELETE"] then
      match Session.exec eng (sql_query, []) s with
      | (Except.ok r, s1) =>
        (Response.page
          { tables := get_table_names schema, current_query := some "custom_sql"
            sql_query := some sql_query, sql_error := none
            sql_success :=
              some ("Запрос выполнен успешно. Затронуто строк: " ++ toString r.rowcount) },
         s1.commit)
      | (Except.error e, s1) => (sqlErrorPage schema sql_query e, s1.rollback)
    else if query_type ∈ dangerous_keywords then
      (Response.page
        { tables := get_table_names schema, current_query := some "custom_sql"
          sql_query := some sql_query
          sql_error :=
            some ("Выполнение запросов типа " ++ query_type
              ++ " ограничено из соображений безопасности")
          sql_success := none }, s)
    else
      match Session.exec eng (sql_query, []) s with
      | (Except.ok _, s1) =>
        (Response.page
          { tables := get_table_names schema, current_query := some "custom_sql"
            sql_query := some sql_query, sql_error := none
            sql_success := some "Запрос выполнен успешно" }, s1.commit)
      | (Except.error e, s1) => (sqlErrorPage schema sql_query e, s1.rollback)

/-! ### `/add_record`, `/edit_record`, `/delete_record` -/

/-- Python library conversions used by `add_record`: `int(...)`,
`float(...)`, `datetime.date.fromisoformat(...)`,
`datetime.datetime.fromisoformat(...)`.  `none` models a raised
`ValueError`. -/
structure PyLib where
  pint : String → Option Int
  pfloat : String → Option String
  pdate : String → Option String
  pdatetime : String → Option String

/-- Model of `del form_dict[k]` on the form dictionary (the key is present in every
request FastAPI lets through, since `table_name` is a required form
field). -/
def delKey (form : List (String × String)) (k : String) : List (String × String) :=
  form.filter (fun p => p.1 ≠ k)

/-- The per-column value conversion of the loop body of `add_record`: empty and
nullable becomes `None`; date/datetime and int/numeric strings are parsed
when nonempty, a failed parse raising HTTP 400; other values stay
strings. -/
def convertValue (lib : PyLib) (c : ColumnMeta) (value : String) :
    Except (Nat × String) PValue :=
  if value = "" ∧ c.nullable then Except.ok PValue.null
  else
    match c.ctype with
    | ColType.date =>
      if value ≠ "" then
        match lib.pdate value with
        | some d => Except.ok (PValue.date d)
        | none =>
          Except.error
            (400, "Неверный формат даты для поля " ++ c.name ++ ". Используйте формат YYYY-MM-DD.")
      else Except.ok (PValue.str value)
    | ColType.datetime =>
      if value ≠ "" then
        match lib.pdatetime value with
        | some d => Except.ok (PValue.datetime d)
        | none =>
          Except.error
            (400, "Неверный формат даты для поля " ++ c.name ++ ". Используйте формат YYYY-MM-DD.")
      else Except.ok (PValue.str value)
    | ColType.integer =>
      if value ≠ "" then
        match lib.pint value with
        | some n => Except.ok (PValue.int n)
        | none => Except.error (400, "Неверный числовой формат для поля " ++ c.name ++ ".")
      else Except.ok (PValue.str value)
    | ColType.numeric =>
      if value ≠ "" then
        match lib.pfloat value with
        | some f => Except.ok (PValue.num f)
        | none => Except.error (400, "Неверный числовой формат для поля " ++ c.name ++ ".")
      else Except.ok (PValue.str value)
    | ColType.other => Except.ok (PValue.str value)

/-- Apply the conversion of one column to the form dictionary: the entry with
the column name (unique in a dict) is converted in place, other entries
are untouched; a column absent from the form is skipped. -/
def convertColumn (lib : PyLib) (c : ColumnMeta) :
    List (String × PValue) → Except (Nat × String) (List (String × PValue))
  | [] => Except.ok []
  | (k, v) :: rest =>
    if k = c.name then
      match v with
      | PValue.str sv =>
        match convertValue lib c sv with
        | Except.ok pv => Except.ok ((k, pv) :: rest)
        | Except.error err => Except.error err
      | other => Except.ok ((k, other) :: rest)
    else
      match convertColumn lib c rest with
      | Except.ok t => Except.ok ((k, v) :: t)
      | Except.error err => Except.error err

/-- The `for column in table.columns` conversion loop of `add_record`. -/
def convertForm (lib : PyLib) (cols : List ColumnMeta) (fd : List (String × PValue)) :
    Except (Nat × String) (List (String × PValue)) :=
  match cols with
  | [] => Except.ok fd
  | c :: cs =>
    match convertColumn lib c fd with
    | Except.ok fd1 => convertForm lib cs fd1
    | Except.error err => Except.error err

/-- The INSERT statement `add_record` builds: quoted field names and
`:key` placeholders in the text, the converted form values bound as
parameters. -/
def insertStmtOf (table_name : String) (fd : Params) : Stmt :=
  let columns := String.intercalate ", " (fd.map (fun p => quoteId p.1))
  let placeholders := String.intercalate ", " (fd.map (fun p => ":" ++ p.1))
  ("INSERT INTO " ++ quoteId table_name ++ " (" ++ columns ++ ") VALUES (" ++ placeholders ++ ")",
   fd)

/-- Model of `add_record`: drop `table_name` from the form, 404 on an unknown
table, convert the values against the reflected columns, execute the
parameterized INSERT and commit; roll back and redirect with
`message_type=danger` on a `SQLAlchemyError`. -/
def add_record (schema : Schema) (eng : Engine) (lib : PyLib) (table_name : String)
    (form : List (String × String)) (s : Session) : Response × Session :=
  let form_dict := delKey form "table_name"
  if table_name ∈ get_table_names schema then
    match schema.find? (fun t => t.name == table_name) with
    | none => (Response.pyCrash "KeyError", s)
    | some table =>
      match convertForm lib table.columns (form_dict.map (fun p => (p.1, PValue.str p.2))) with
      | Except.error err => (Response.httpError err.1 err.2, s)
      | Except.ok fd =>
        match Session.exec eng (insertStmtOf table_name fd) s with
        | (Except.ok _, s1) =>
          (Response.redirect
            ("/view?table_name=" ++ table_name
              ++ "&message=Запись успешно добавлена&message_type=success"), s1.commit)
        | (Except.error e, s1) =>
          (Response.redirect
            ("/view?table_name=" ++ table_name ++ "&message=Ошибка при добавлении записи: " ++ e
              ++ "&message_type=danger"), s1.rollback)
  else (Response.httpError 404 ("Таблица " ++ table_name ++ " не найдена"), s)

/-- The `pk_` extraction loop of `edit_record`: fields whose key starts
with `pk_` move (prefix stripped, `key[3:]`) into the primary-key dict
and are deleted from the form dict; the others stay. -/
def extractPks : List (String × String) → List (String × String) × List (String × String)
  | [] => ([], [])
  | p :: rest =>
    let r := extractPks rest
    if p.1.startsWith "pk_" then ((p.1.drop 3, p.2) :: r.1, r.2) else (r.1, p :: r.2)

/-- The empty-string-to-`None` pass of `edit_record` over the remaining
form fields. -/
def nullifyEmpty (fd : List (String × String)) : Params :=
  fd.map (fun p => (p.1, if p.2 = "" then PValue.null else PValue.str p.2))

/-- The UPDATE statement `edit_record` builds: a SET clause with `:key`
placeholders over the remaining fields, a WHERE clause with `:key_pk`
placeholders over the stripped primary-key fields, and the merged
parameter dict. -/
def updateStmtOf (table_name : String) (fd : Params) (pks : List (String × String)) : Stmt :=
  let set_clause := String.intercalate ", " (fd.map (fun p => quoteId p.1 ++ " = :" ++ p.1))
  let where_clause :=
    String.intercalate " AND " (pks.map (fun p => quoteId p.1 ++ " = :" ++ p.1 ++ "_pk"))
  let where_values := pks.map (fun p => (p.1 ++ "_pk", PValue.str p.2))
  ("UPDATE " ++ quoteId table_name ++ " SET " ++ set_clause ++ " WHERE " ++ where_clause,
   fd ++ where_values)

/-- Model of `edit_record`: drop `table_name`, 404 on an unknown table, split off
the `pk_` fields, null the empty remaining values, execute the
parameterized UPDATE and commit; roll back and redirect with
`message_type=danger` on a `SQLAlchemyError`. -/
def edit_record (schema : Schema) (eng : Engine) (table_name : String)
    (form : List (String × String)) (s : Session) : Response × Session :=
  let form_dict0 := delKey form "table_name"
  if table_name ∈ get_table_names schema then
    let pr := extractPks form_dict0
    let st := updateStmtOf table_name (nullifyEmpty pr.2) pr.1
    match Session.exec eng st s with
    | (Except.ok _, s1) =>
      (Response.redirect
        ("/view?table_name=" ++ table_name
          ++ "&message=Запись успешно обновлена&message_type=success"), s1.commit)
    | (Except.error e, s1) =>
      (Response.redirect
        ("/view?table_name=" ++ table_name ++ "&message=Ошибка при обновлении записи: " ++ e
          ++ "&message_type=danger"), s1.rollback)
  else (Response.httpError 404 ("Таблица " ++ table_name ++ " не найдена"), s)

/-- The primary-key collection loop of `delete_record` (the form dict is
left unchanged there). -/
def collectPks (fd : List (String × String)) : List (String × String) :=
  (fd.filter (fun p => p.1.startsWith "pk_")).map (fun p => (p.1.drop 3, p.2))

/-- The DELETE statement `delete_record` builds: a WHERE clause with
`:key` placeholders over the stripped primary-key fields. -/
def deleteStmtOf (table_name : String) (pks : List (String × String)) : Stmt :=
  let where_clause :=
    String.intercalate " AND " (pks.map (fun p => quoteId p.1 ++ " = :" ++ p.1))
  ("DELETE FROM " ++ quoteId table_name ++ " WHERE " ++ where_clause,
   pks.map (fun p => (p.1, PValue.str p.2)))

/-- Model of `delete_record`: drop `table_name`, 404 on an unknown table, collect
the `pk_` fields, execute the parameterized DELETE and commit; roll back
and redirect with `message_type=danger` on a `SQLAlchemyError`. -/
def delete_record (schema : Schema) (eng : Engine) (table_name : String)
    (form : List (String × String)) (s : Session) : Response × Session :=
  let form_dict := delKey form "table_name"
  if table_name ∈ get_table_names schema then
    let st := deleteStmtOf table_name (collectPks form_dict)
    match Session.exec eng st s with
    | (Except.ok _, s1) =>
      (Response.redirect
        ("/view?table_name=" ++ table_name
          ++ "&message=Запись успешно удалена&message_type=success"), s1.commit)
    | (Except.error e, s1) =>
      (Response.redirect
        ("/view?table_name=" ++ table_name ++ "&message=Ошибка при удалении записи: " ++ e
          ++ "&message_type=danger"), s1.rollback)
  else (Response.httpError 404 ("Таблица " ++ table_name ++ " не найдена"), s)

/-! ### `/api/tables/{table_name}/schema` (get_table_schema) -/

/-- The foreign-key info dict built per foreign-key column. -/
structure FKInfoOut where
  target_table : String
  target_column : String
  values : List Cell
deriving Repr, DecidableEq

/-- One entry of the `columns` list the schema endpoint returns. -/
structure ColumnSchemaOut where
  name : String
  type : String
  input_type : String
  is_primary_key : Bool
  is_nullable : Bool
  has_default : Bool
  is_foreign_key : Bool
  foreign_key_info : Option FKInfoOut
deriving Repr, DecidableEq

/-- The JSON dict the schema endpoint returns. -/
structure TableSchemaOut where
  table_name : String
  primary_keys : List String
  required_columns : List String
  columns : List ColumnSchemaOut
deriving Repr, DecidableEq

/-- What the schema endpoint produces: the JSON dict, an `HTTPException`,
or an uncaught Python exception. -/
inductive SchemaResponse where
  | ok (r : TableSchemaOut)
  | httpError (code : Nat) (detail : String)
  | pyCrash (msg : String)
deriving Repr, DecidableEq

/-- The form-input-type classification of `get_table_schema`, by substring
tests on the lowercased `str(column.type)`. -/
def input_type_of (typeName : String) : String :=
  let lt := pyLower typeName
  if pyContains "int" lt then "number"
  else if pyContains "date" lt then "date"
  else if pyContains "time" lt then "time"
  else if pyContains "numeric" lt then "number"
  else "text"

/-- The `SELECT DISTINCT "{target_column}" FROM "{target_table}"` text the
schema endpoint runs to list the existing values of a foreign key. -/
def fkValuesQuery (target_column target_table : String) : String :=
  "SELECT DISTINCT " ++ quoteId target_column ++ " FROM " ++ quoteId target_table

/-- The loop body of `get_table_schema` for one column: find the first
foreign key constraining it; for a foreign-key column take the referred
table, the first referred column (Python indexes `[0]`, an IndexError on
an empty list propagates) and the distinct existing values from the
database (an engine error becomes HTTP 500 via the handler level
`except SQLAlchemyError`). -/
def columnSchemaOf (eng : Engine) (fks : List FKMeta) (c : ColumnMeta) (s : Session) :
    Except SchemaResponse ColumnSchemaOut × Session :=
  match fks.find? (fun fk => fk.constrained_columns.contains c.name) with
  | none =>
    (Except.ok
      { name := c.name, type := c.typeName, input_type := input_type_of c.typeName
        is_primary_key := c.primary_key, is_nullable := c.nullable, has_default := c.hasDefault
        is_foreign_key := false, foreign_key_info := none }, s)
  | some fk =>
    match fk.referred_columns with
    | [] => (Except.error (SchemaResponse.pyCrash "IndexError: list index out of range"), s)
    | target_column :: _ =>
      match Session.exec eng (fkValuesQuery target_column fk.referred_table, []) s with
      | (Except.error e, s1) =>
        (Except.error (SchemaResponse.httpError 500 ("Ошибка базы данных: " ++ e)), s1)
      | (Except.ok r, s1) =>
        (Except.ok
          { name := c.name, type := c.typeName, input_type := input_type_of c.typeName
            is_primary_key := c.primary_key, is_nullable := c.nullable
            has_default := c.hasDefault, is_foreign_key := true
            foreign_key_info :=
              some { target_table := fk.referred_table, target_column := target_column
                     values := r.rows.map (fun row => row.headI) } }, s1)

/-- The `for column in table.columns` loop of `get_table_schema`. -/
def columnsSchemaOf (eng : Engine) (fks : List FKMeta) :
    List ColumnMeta → Session → Except SchemaResponse (List ColumnSchemaOut) × Session
  | [], s => (Except.ok [], s)
  | c :: cs, s =>
    match columnSchemaOf eng fks c s with
    | (Except.error r, s1) => (Except.error r, s1)
    | (Except.ok ci, s1) =>
      match columnsSchemaOf eng fks cs s1 with
      | (Except.error r, s2) => (Except.error r, s2)
      | (Except.ok rest, s2) => (Except.ok (ci :: rest), s2)

/-- Model of `get_table_schema`: 404 on a table name outside the reflected list,
otherwise the table-info dict plus the per-column schema entries. -/
def get_table_schema (schema : Schema) (eng : Engine) (table_name : String) (s : Session) :
    SchemaResponse × Session :=
  if table_name ∈ get_table_names schema then
    match get_table_info schema table_name with
    | Except.error err => (SchemaResponse.httpError err.1 err.2, s)
    | Except.ok table_info =>
      match schema.find? (fun t => t.name == table_name) with
      | none => (SchemaResponse.httpError 404 ("Таблица " ++ table_name ++ " не найдена"), s)
      | some table =>
        match columnsSchemaOf eng table.fks table.columns s with
        | (Except.error r, s1) => (r, s1)
        | (Except.ok cols, s1) =>
          (SchemaResponse.ok
            { table_name := table_name, primary_keys := table_info.primary_keys
              required_columns := table_info.required_columns, columns := cols }, s1)
  else (SchemaResponse.httpError 404 ("Таблица " ++ table_name ++ " не найдена"), s)

/-! ### The five fixed reports `/query1` .. `/query5` -/

/-- The incoming HTTP request, as far as a handler could observe it (the
reporting handlers only forward it to the template). -/
structure Request where
  params : List (String × String)
deriving Repr, DecidableEq

/-- The constant SQL text of the /query1 report (src/routers/view.py). -/
def query1Text : String := "
    WITH ЗадолженностиКлиентов AS (
        SELECT 
            п.лицевой_счет,
            COUNT(DISTINCT п.код_услуги) AS количество_неоплаченных_услуг,
            SUM(п.сумма_к_оплате - COALESCE(пл.сумма_платежа, 0)) AS общая_задолженность
        FROM 
            потребление п
        LEFT JOIN 
            платежи пл ON п.лицевой_счет = пл.лицевой_счет 
            AND п.код_услуги = пл.код_услуги 
            AND п.период = пл.период
        WHERE 
            (п.сумма_к_оплате - COALESCE(пл.сумма_платежа, 0)) > 0
            OR пл.сумма_платежа IS NULL
        GROUP BY 
            п.лицевой_счет
        HAVING 
            COUNT(DISTINCT п.код_услуги) > 1
    )
    SELECT 
        з.лицевой_счет,
        к.фио,
        к.адрес,
        к.телефон,
        з.количество_неоплаченных_услуг,
        з.общая_задолженность
    FROM 
        ЗадолженностиКлиентов з
    JOIN 
        клиенты к ON з.лицевой_счет = к.лицевой_счет
    ORDER BY 
        з.общая_задолженность DESC
    "

/-- The constant SQL text of the /query2 report (src/routers/view.py). -/
def query2Text : String := "
    SELECT 
        у.код_услуги,
        у.наименование AS услуга,
        у.единица_измерения,
        т.тарифная_зона,
        т.стоимость_единицы AS текущий_тариф,
        т.действует_с,
        т.действует_по,
        ROUND(AVG(п.объем), 2) AS средний_объем_потребления,
        COUNT(DISTINCT п.лицевой_счет) AS количество_потребителей
    FROM 
        услуги у
    JOIN 
        тарифы т ON у.код_услуги = т.код_услуги
    LEFT JOIN 
        потребление п ON у.код_услуги = п.код_услуги
    WHERE 
        (т.действует_по IS NULL OR т.действует_по >= CURRENT_DATE)
        AND т.действует_с <= CURRENT_DATE
    GROUP BY 
        у.код_услуги, у.наименование, у.единица_измерения, 
        т.тарифная_зона, т.стоимость_единицы, т.действует_с, т.действует_по
    ORDER BY 
        у.наименование, т.тарифная_зона
    "

/-- The constant SQL text of the /query3 report (src/routers/view.py). -/
def query3Text : String := "
    WITH ПоследнийМесяц AS (
        SELECT MAX(период) AS макс_период FROM потребление
    ),
    СреднееПотребление AS (
        SELECT 
            п.код_услуги,
            у.наименование,
            AVG(п.объем) AS среднее_значение
        FROM 
            потребление п
        JOIN 
            услуги у ON п.код_услуги = у.код_услуги
        JOIN 
            ПоследнийМесяц пм ON п.период = пм.макс_период
        GROUP BY 
            п.код_услуги, у.наименование
    )
    SELECT 
        к.лицевой_счет,
        к.фио,
        к.адрес,
        у.наименование AS услуга,
        п.период,
        п.объем AS потребление_клиента,
        с.среднее_значение AS среднее_потребление,
        ROUND((п.объем - с.среднее_значение) / с.среднее_значение * 100, 2) AS процент_превышения
    FROM 
        потребление п
    JOIN 
        клиенты к ON п.лицевой_счет = к.лицевой_счет
    JOIN 
        услуги у ON п.код_услуги = у.код_услуги
    JOIN 
        СреднееПотребление с ON п.код_услуги = с.код_услуги
    JOIN 
        ПоследнийМесяц пм ON п.период = пм.макс_период
    WHERE 
        п.объем > с.среднее_значение
    ORDER BY 
        у.наименование, процент_превышения DESC
    "

/-- The constant SQL text of the /query4 report (src/routers/view.py). -/
def query4Text : String := "
    WITH ПоследнийМесяц AS (
        SELECT MAX(период) AS макс_период FROM платежи
    )
    SELECT 
        к.лицевой_счет,
        к.фио,
        к.адрес,
        у.наименование AS услуга,
        SUM(пл.сумма_платежа) AS сумма_оплаты
    FROM 
        платежи пл
    JOIN 
        клиенты к ON пл.лицевой_счет = к.лицевой_счет
    JOIN 
        услуги у ON пл.код_услуги = у.код_услуги
    JOIN 
        ПоследнийМесяц пм ON пл.период = пм.макс_период
    WHERE 
        к.адрес LIKE \x27%ул. Пушкина%\x27
    GROUP BY 
        к.лицевой_счет, к.фио, к.адрес, у.наименование
    ORDER BY 
        к.фио, у.наименование
    "

/-- The constant SQL text of the /query5 report (src/routers/view.py). -/
def query5Text : String := "
    WITH МесяцыТекущегоГода AS (
        SELECT 
            DISTINCT период 
        FROM 
            потребление 
        WHERE 
            EXTRACT(YEAR FROM период) = EXTRACT(YEAR FROM CURRENT_DATE)
        ORDER BY 
            период
    ),
    ЗадолженностьПоУслугам AS (
        SELECT 
            п.период,
            п.код_услуги,
            у.наименование AS услуга,
            SUM(п.сумма_к_оплате) AS начислено,
            SUM(COALESCE(пл.сумма_платежа, 0)) AS оплачено,
            SUM(п.сумма_к_оплате - COALESCE(пл.сумма_платежа, 0)) AS задолженность,
            COUNT(DISTINCT CASE WHEN (п.сумма_к_оплате - COALESCE(пл.сумма_платежа, 0)) > 0 
                              THEN п.лицевой_счет END) AS количество_должников
        FROM 
            потребление п
        JOIN 
            услуги у ON п.код_услуги = у.код_услуги
        LEFT JOIN 
            платежи пл ON п.лицевой_счет = пл.лицевой_счет 
            AND п.код_услуги = пл.код_услуги 
            AND п.период = пл.период
        WHERE 
            EXTRACT(YEAR FROM п.период) = EXTRACT(YEAR FROM CURRENT_DATE)
        GROUP BY 
            п.период, п.код_услуги, у.наименование
    )
    SELECT 
        TO_CHAR(з.период, \x27Month YYYY\x27) AS месяц,
        з.услуга,
        з.начислено,
        з.оплачено,
        з.задолженность,
        з.количество_должников,
        ROUND(з.задолженность / NULLIF(з.начислено, 0) * 100, 2) AS процент_задолженности
    FROM 
        ЗадолженностьПоУслугам з
    JOIN 
        МесяцыТекущегоГода м ON з.период = м.период
    ORDER BY 
        з.период, з.услуга
    "

/-- Model of `run_query1`. -/
def run_query1 (_req : Request) (schema : Schema) (eng : Engine) (s : Session) :
    Response × Session :=
  match execute_custom_query eng query1Text s with
  | (Except.error e, s1) => (Response.pyCrash e, s1)
  | (Except.ok (columns, data), s1) =>
    (Response.page
      { tables := get_table_names schema, current_query := some "query1"
        columns := columns, data := data
        query_title := some "Клиенты с задолженностью по более чем 1 услуге" }, s1)

/-- Model of `run_query2`. -/
def run_query2 (_req : Request) (schema : Schema) (eng : Engine) (s : Session) :
    Response × Session :=
  match execute_custom_query eng query2Text s with
  | (Except.error e, s1) => (Response.pyCrash e, s1)
  | (Except.ok (columns, data), s1) =>
    (Response.page
      { tables := get_table_names schema, current_query := some "query2"
        columns := columns, data := data
        query_title := some "Коммунальные услуги с тарифами и объемами потребления" }, s1)

/-- Model of `run_query3`. -/
def run_query3 (_req : Request) (schema : Schema) (eng : Engine) (s : Session) :
    Response × Session :=
  match execute_custom_query eng query3Text s with
  | (Except.error e, s1) => (Response.pyCrash e, s1)
  | (Except.ok (columns, data), s1) =>
    (Response.page
      { tables := get_table_names schema, current_query := some "query3"
        columns := columns, data := data
        query_title := some "Клиенты с потреблением выше среднего за последний месяц" }, s1)

/-- Model of `run_query4`. -/
def run_query4 (_req : Request) (schema : Schema) (eng : Engine) (s : Session) :
    Response × Session :=
  match execute_custom_query eng query4Text s with
  | (Except.error e, s1) => (Response.pyCrash e, s1)
  | (Except.ok (columns, data), s1) =>
    (Response.page
      { tables := get_table_names schema, current_query := some "query4"
        columns := columns, data := data
        query_title :=
          some "Ведомость оплаты коммунальных услуг по адресу \x27ул. Пушкина\x27" }, s1)

/-- Model of `run_query5`. -/
def run_query5 (_req : Request) (schema : Schema) (eng : Engine) (s : Session) :
    Response × Session :=
  match execute_custom_query eng query5Text s with
  | (Except.error e, s1) => (Response.pyCrash e, s1)
  | (Except.ok (columns, data), s1) =>
    (Response.page
      { tables := get_table_names schema, current_query := some "query5"
        columns := columns, data := data
        query_title := some "Задолженность по коммунальным услугам по месяцам" }, s1)

/-- The reporting routes the router registers, paired with the constant
SQL text each one executes. -/
def reportRoutes : List (String × String) :=
  [("/query1", query1Text), ("/query2", query2Text), ("/query3", query3Text),
   ("/query4", query4Text), ("/query5", query5Text)]

/-! ### `DatabaseManager.get_db` (src/database_manager.py) -/

/-- The ledger of sessions the provider has opened and closed. -/
structure SessionLog where
  openedIds : List Nat
  closedIds : List Nat
deriving Repr, DecidableEq

/-- Model of `DatabaseManager.get_db`: the call `db = self.SessionLocal()` opens a fresh
session, the request body runs with it (`yield db`, `Except.error`
modelling an exception the body raises), and `finally: db.close()` closes
it on both outcomes.  The module-level `get_db` dependency is the same
scope entered through `with`. -/
def DatabaseManager.get_db {E A : Type} (body : Nat → Except E A) (log : SessionLog) :
    Except E A × SessionLog :=
  let id := log.openedIds.length
  let log1 : SessionLog := { openedIds := log.openedIds ++ [id], closedIds := log.closedIds }
  let result := body id
  (result, { openedIds := log1.openedIds, closedIds := log1.closedIds ++ [id] })

/-- Spec-side characterization of one entry the schema endpoint returns
for a column: its name, its type string, its nullability, its primary-key
flag, and — when the column is constrained by a foreign key — the target
table, the target column (first referred column) and the distinct existing
values the database holds for it. -/
def columnReported (eng : Engine) (fks : List FKMeta) (ci : ColumnSchemaOut)
    (c : ColumnMeta) : Prop :=
  ci.name = c.name ∧ ci.type = c.typeName ∧ ci.input_type = input_type_of c.typeName ∧
  ci.is_primary_key = c.primary_key ∧ ci.is_nullable = c.nullable ∧
  ci.has_default = c.hasDefault ∧
  (match fks.find? (fun fk => fk.constrained_columns.contains c.name) with
   | none => ci.is_foreign_key = false ∧ ci.foreign_key_info = none
   | some fk =>
     ci.is_foreign_key = true ∧
     ∃ tc rest res, fk.referred_columns = tc :: rest ∧
       eng ((fkValuesQuery tc fk.referred_table : String), ([] : Params)) = Except.ok res ∧
       ci.foreign_key_info =
         some { target_table := fk.referred_table, target_column := tc
                values := res.rows.map (fun row => row.headI) })

/-! ### Concrete instances used by the witnesses -/

/-- A two-column demo table with a foreign key. -/
def demoFkTable : TableMeta :=
  { name := "orders"
    columns :=
      [{ name := "id", typeName := "INTEGER", ctype := ColType.integer, nullable := false
         primary_key := true, hasDefault := false },
       { name := "client", typeName := "VARCHAR(20)", ctype := ColType.other, nullable := true
         primary_key := false, hasDefault := false }]
    fks :=
      [{ constrained_columns := ["client"], referred_table := "clients"
         referred_columns := ["id"] }] }

/-- A demo schema containing a foreign key. -/
def demoFkSchema : Schema :=
  [demoFkTable, { name := "clients", columns := [], fks := [] }]

/-- A demo request. -/
def demoRequest : Request := { params := [] }

/-- A one-column demo table. -/
def demoColumn : ColumnMeta :=
  { name := "id", typeName := "INTEGER", ctype := ColType.integer, nullable := false
    primary_key := true, hasDefault := false }

/-- A demo table. -/
def demoTable : TableMeta := { name := "t", columns := [demoColumn], fks := [] }

/-- A demo schema. -/
def demoSchema : Schema := [demoTable]

/-- A fresh session. -/
def emptySession : Session := { committedLog := [], pendingLog := [], attempted := [] }

/-- An engine on which every statement raises a `SQLAlchemyError`. -/
def failEngine : Engine := fun _ => Except.error "boom"

/-- An engine on which every statement succeeds with one row. -/
def okEngine : Engine :=
  fun _ => Except.ok { columns := ["id"], rows := [["1"]], rowcount := 1 }

/-- Demo Python conversions that always succeed. -/
def demoLib : PyLib :=
  { pint := fun _ => some 1, pfloat := fun s => some s, pdate := fun s => some s
    pdatetime := fun s => some s }

/-! ### Lemmas on the Python string primitives -/

/-- Uppercasing a character does not change whether it is whitespace. -/
theorem isSpace_pyUpperChar (c : Char) : isSpace (pyUpperChar c) = isSpace c := by
  unfold pyUpperChar
  split
  · rename_i h
    have ht : (Char.ofNatAux (c.toNat - 32) (Or.inl (by omega))).toNat = c.toNat - 32 := rfl
    simp [isSpace, ht]
    obtain ⟨h1, h2⟩ := h
    have e1 : (c.toNat - 32 == 32 || c.toNat - 32 == 9 || c.toNat - 32 == 10 || c.toNat - 32 == 13
        || c.toNat - 32 == 11 || c.toNat - 32 == 12) = false := by
      simp only [Bool.or_eq_false_iff, beq_eq_false_iff_ne, ne_eq]
      omega
    have e2 : (c.toNat == 32 || c.toNat == 9 || c.toNat == 10 || c.toNat == 13
        || c.toNat == 11 || c.toNat == 12) = false := by
      simp only [Bool.or_eq_false_iff, beq_eq_false_iff_ne, ne_eq]
      omega
    rw [e1, e2]
  · rfl

/-- Running `splitWords` with a nonempty accumulator yields at least one word. -/
theorem splitWords_acc_ne (l : List Char) :
    ∀ acc : List Char, acc ≠ [] → splitWords l acc ≠ [] := by
  induction l with
  | nil =>
    intro acc h
    cases acc with
    | nil => exact absurd rfl h
    | cons a t => simp [splitWords]
  | cons c cs ih =>
    intro acc h
    by_cases hc : isSpace c
    · cases acc with
      | nil => exact absurd rfl h
      | cons a t => simp [splitWords, hc]
    · simp only [splitWords, hc, if_neg, Bool.false_eq_true, not_false_eq_true]
      exact ih (c :: acc) (by simp)

/-- A character list containing a non-space character splits into at least
one word. -/
theorem splitWords_ne_nil (l : List Char) (h : ∃ c ∈ l, isSpace c = false) :
    splitWords l [] ≠ [] := by
  induction l with
  | nil => simp at h
  | cons c cs ih =>
    by_cases hc : isSpace c
    · have h' : ∃ a ∈ cs, isSpace a = false := by
        rcases h with ⟨a, ha, hsp⟩
        rcases List.mem_cons.mp ha with rfl | hmem
        · exact absurd hc (by rw [hsp]; simp)
        · exact ⟨a, hmem, hsp⟩
      simp only [splitWords, hc, if_pos, List.isEmpty_nil, if_true]
      exact ih h'
    · simp only [splitWords, hc, if_neg, Bool.false_eq_true, not_false_eq_true]
      exact splitWords_acc_ne cs [c] (by simp)

/-- Splitting an all-whitespace list flushes the accumulator only. -/
theorem splitWords_all_spaces (sp : List Char) (h : ∀ c ∈ sp, isSpace c = true) :
    ∀ acc, splitWords sp acc = if acc.isEmpty then [] else [acc.reverse] := by
  induction sp with
  | nil => intro acc; simp [splitWords]
  | cons c cs ih =>
    intro acc
    have hc := h c (by simp)
    have ih' := ih (fun a ha => h a (by simp [ha]))
    cases acc with
    | nil => simp [splitWords, hc, ih' []]
    | cons a t => simp [splitWords, hc, ih' []]

/-- Trailing whitespace does not change the word split. -/
theorem splitWords_append_spaces (l sp : List Char) (hsp : ∀ c ∈ sp, isSpace c = true) :
    ∀ acc, splitWords (l ++ sp) acc = splitWords l acc := by
  induction l with
  | nil =>
    intro acc
    rw [List.nil_append, splitWords_all_spaces sp hsp acc]
    simp [splitWords]
  | cons c cs ih =>
    intro acc
    by_cases hc : isSpace c <;> simp [splitWords, hc, ih]

/-- Leading whitespace does not change the word split. -/
theorem splitWords_dropWhile (l : List Char) :
    splitWords (l.dropWhile isSpace) [] = splitWords l [] := by
  induction l with
  | nil => rfl
  | cons c cs ih =>
    rw [List.dropWhile_cons]
    by_cases hc : isSpace c
    · simp only [hc, if_true, ih]
      simp [splitWords, hc]
    · simp [hc]

/-- Stripping does not change the word split (Python:
`s.strip().split() == s.split()`). -/
theorem pySplit_pyStrip (s : String) : pySplit (pyStrip s) = pySplit s := by
  unfold pySplit
  congr 1
  show splitWords (((s.toList.dropWhile isSpace).reverse.dropWhile isSpace).reverse) [] =
    splitWords s.toList []
  set A := s.toList.dropWhile isSpace with hA
  have hdec : A.reverse = A.reverse.takeWhile isSpace ++ A.reverse.dropWhile isSpace :=
    (List.takeWhile_append_dropWhile isSpace A.reverse).symm
  have hA2 : A = (A.reverse.dropWhile isSpace).reverse ++ (A.reverse.takeWhile isSpace).reverse := by
    conv_lhs => rw [← List.reverse_reverse A, hdec]
    rw [List.reverse_append]
  have hsp : ∀ c ∈ (A.reverse.takeWhile isSpace).reverse, isSpace c = true := by
    intro c hc
    rw [List.mem_reverse] at hc
    exact List.mem_takeWhile_imp hc
  calc splitWords ((A.reverse.dropWhile isSpace).reverse) []
      = splitWords ((A.reverse.dropWhile isSpace).reverse
          ++ (A.reverse.takeWhile isSpace).reverse) [] :=
        (splitWords_append_spaces _ _ hsp []).symm
    _ = splitWords A [] := by rw [← hA2]
    _ = splitWords s.toList [] := by rw [hA]; exact splitWords_dropWhile s.toList

/-- The function `splitWords` commutes with character-wise uppercasing. -/
theorem splitWords_map_upper (l : List Char) :
    ∀ acc, splitWords (l.map pyUpperChar) (acc.map pyUpperChar) =
      (splitWords l acc).map (List.map pyUpperChar) := by
  induction l with
  | nil =>
    intro acc
    cases acc <;> simp [splitWords]
  | cons c cs ih =>
    intro acc
    by_cases hc : isSpace c
    · have hc2 : isSpace (pyUpperChar c) = true := by rw [isSpace_pyUpperChar]; exact hc
      cases acc with
      | nil => simpa [splitWords, hc, hc2] using ih []
      | cons a t =>
        have h0 := ih []
        simp only [List.map_nil] at h0
        simp [splitWords, hc, hc2, h0]
    · have hc2 : isSpace (pyUpperChar c) = false := by
        rw [isSpace_pyUpperChar]; simpa using hc
      have h2 := ih (c :: acc)
      simp only [List.map_cons] at h2
      simpa [splitWords, hc, hc2] using h2

/-- Python `str.split` commutes with `str.upper`. -/
theorem pySplit_pyUpper (s : String) : pySplit (pyUpper s) = (pySplit s).map pyUpper := by
  show (splitWords (s.toList.map pyUpperChar) []).map String.mk =
    ((splitWords s.toList []).map String.mk).map pyUpper
  have h := splitWords_map_upper s.toList []
  simp only [List.map_nil] at h
  rw [h, List.map_map, List.map_map]
  rfl

/-- Taking `headI` commutes with mapping `pyUpper` (also on the empty list, since
`pyUpper "" = ""`). -/
theorem headI_map_pyUpper (ws : List String) : (ws.map pyUpper).headI = pyUpper ws.headI := by
  cases ws with
  | nil => rfl
  | cons w t => rfl

/-- The token `execute_sql` classifies by equals the uppercased first
whitespace-delimited token of the (stripped) query. -/
theorem queryType_eq_upper_headI (q : String) :
    (pySplit (pyStrip (pyUpper q))).headI = pyUpper ((pySplit q).headI) := by
  rw [pySplit_pyStrip, pySplit_pyUpper, headI_map_pyUpper]

/-- The head of a `dropWhile` fails the predicate. -/
theorem dropWhile_head_false {p : Char → Bool} :
    ∀ (m : List Char) c t, m.dropWhile p = c :: t → p c = false := by
  intro m
  induction m with
  | nil => intro c t h; simp at h
  | cons a m' ih =>
    intro c t h
    rw [List.dropWhile_cons] at h
    by_cases ha : p a
    · rw [if_pos ha] at h
      exact ih c t h
    · rw [if_neg ha] at h
      cases h
      simpa using ha

/-- A query with nonempty stripped text splits into at least one token, so
the `[0]` indexing in `execute_sql` cannot fail. -/
theorem pySplit_ne_nil_of_pyStrip_ne (q : String) (h : pyStrip q ≠ "") :
    pySplit (pyStrip q) ≠ [] := by
  unfold pySplit
  rw [Ne, List.map_eq_nil_iff]
  set B := (q.toList.dropWhile isSpace).reverse.dropWhile isSpace with hB
  have hlist : (pyStrip q).toList = B.reverse := rfl
  have hBne : B ≠ [] := by
    intro h0
    apply h
    calc pyStrip q = String.mk (pyStrip q).toList := rfl
      _ = String.mk [] := by rw [hlist, h0]; rfl
      _ = "" := rfl
  obtain ⟨c, t, hct⟩ : ∃ c t, B = c :: t := by
    cases hB2 : B with
    | nil => exact absurd hB2 hBne
    | cons c t => exact ⟨c, t, rfl⟩
  have hcsp : isSpace c = false :=
    dropWhile_head_false ((q.toList.dropWhile isSpace).reverse) c t (hB ▸ hct)
  apply splitWords_ne_nil
  refine ⟨c, ?_, hcsp⟩
  show c ∈ (pyStrip q).toList
  rw [hlist, hct]
  exact List.mem_reverse.mpr (by simp)

/-! ### Lemmas on the session model -/

/-- Committing does not change the execution trace. -/
theorem commit_attempted (s : Session) : s.commit.attempted = s.attempted := rfl

/-- Rolling back does not change the execution trace. -/
theorem rollback_attempted (s : Session) : s.rollback.attempted = s.attempted := rfl

/-- Rolling back keeps the committed log. -/
theorem rollback_committed (s : Session) : s.rollback.committedLog = s.committedLog := rfl

/-- Rolling back empties the pending log. -/
theorem rollback_pending (s : Session) : s.rollback.pendingLog = [] := rfl

/-- Every `db.execute` appends the statement to the trace, whether the
engine accepts it or raises. -/
theorem exec_attempted (eng : Engine) (st : Stmt) (s : Session) :
    (Session.exec eng st s).2.attempted = s.attempted ++ [st] := by
  unfold Session.exec
  cases eng st <;> rfl

/-- The shape of `db.execute` when the engine raises. -/
theorem exec_error (eng : Engine) (st : Stmt) (s : Session) (e : String)
    (h : eng st = Except.error e) :
    Session.exec eng st s = (Except.error e, { s with attempted := s.attempted ++ [st] }) := by
  unfold Session.exec
  rw [h]

/-- The shape of `db.execute` when the engine accepts. -/
theorem exec_ok (eng : Engine) (st : Stmt) (s : Session) (r : QueryResult)
    (h : eng st = Except.ok r) :
    Session.exec eng st s =
      (Except.ok r,
       { s with attempted := s.attempted ++ [st], pendingLog := s.pendingLog ++ [st] }) := by
  unfold Session.exec
  rw [h]

/-- A trace never shrinks to its old value after an execution. -/
theorem attempted_append_ne (l : List Stmt) (st : Stmt) : l ++ [st] ≠ l := by
  intro h
  have := congrArg List.length h
  simp at this


/-! ### Claim C1 -/

/-- C1: a submitted query whose first whitespace-delimited token,
uppercased, is one of DROP, CREATE, ALTER, TRUNCATE, GRANT or REVOKE is
denied by `execute_sql`: the session (its statement trace included) is
returned unchanged, so nothing reaches the database, and the rendered page
carries a `sql_error` naming the restricted query type and
`sql_success = None`. -/
theorem execute_sql_denies_restricted (schema : Schema) (eng : Engine) (q : String)
    (s : Session) (h1 : pyStrip q ≠ "")
    (h2 : pyUpper ((pySplit (pyStrip q)).headI) ∈ dangerous_keywords) :
    execute_sql schema eng q s =
      (Response.page
        { tables := get_table_names schema, current_query := some "custom_sql"
          sql_query := some (pyStrip q)
          sql_error := some ("Выполнение запросов типа " ++ pyUpper ((pySplit (pyStrip q)).headI)
            ++ " ограничено из соображений безопасности")
          sql_success := none }, s) := by
  simp only [execute_sql]
  rw [if_neg h1, queryType_eq_upper_headI]
  simp only [dangerous_keywords, List.mem_cons, List.not_mem_nil, or_false] at h2
  rcases h2 with h2 | h2 | h2 | h2 | h2 | h2 <;> rw [h2] <;> simp [dangerous_keywords]

/-- Witness for C1 at the concrete query `"DROP TABLE t"`. -/
theorem execute_sql_denies_restricted_witness :
    execute_sql demoSchema okEngine "DROP TABLE t" emptySession =
      (Response.page
        { tables := get_table_names demoSchema, current_query := some "custom_sql"
          sql_query := some (pyStrip "DROP TABLE t")
          sql_error := some ("Выполнение запросов типа "
            ++ pyUpper ((pySplit (pyStrip "DROP TABLE t")).headI)
            ++ " ограничено из соображений безопасности")
          sql_success := none }, emptySession) :=
  execute_sql_denies_restricted demoSchema okEngine "DROP TABLE t" emptySession
    (by decide) (by decide)

/-! ### Claim C3 -/

/-- The handler `execute_sql` leaves the statement trace unchanged exactly when the
uppercased first token of the (nonempty) stripped query is deny-listed. -/
theorem execute_sql_attempted_iff (schema : Schema) (eng : Engine) (q : String) (s : Session)
    (h1 : pyStrip q ≠ "") :
    (execute_sql schema eng q s).2.attempted = s.attempted ↔
      pyUpper ((pySplit (pyStrip q)).headI) ∈ dangerous_keywords := by
  simp only [execute_sql]
  rw [if_neg h1, queryType_eq_upper_headI]
  by_cases hsel : pyUpper ((pySplit (pyStrip q)).headI) = "SELECT"
  · rw [if_pos hsel]
    have hatt :
        (match execute_custom_query eng (pyStrip q) s with
          | (Except.ok (columns, data), s1) =>
            (Response.page
              { tables := get_table_names schema, current_query := some "custom_sql"
                columns := columns, data := data, sql_query := some (pyStrip q)
                sql_error := none
                sql_success :=
                  some ("Запрос выполнен успешно. Найдено записей: "
                    ++ toString data.length) }, s1)
          | (Except.error e, s1) =>
            (sqlErrorPage schema (pyStrip q) e, s1.rollback)).2.attempted =
          s.attempted ++ [((pyStrip q : String), ([] : Params))] := by
      unfold execute_custom_query Session.exec
      cases eng ((pyStrip q : String), ([] : Params)) <;> rfl
    rw [hatt]
    exact iff_of_false (attempted_append_ne _ _) (by rw [hsel]; decide)
  · rw [if_neg hsel]
    by_cases hdml : pyUpper ((pySplit (pyStrip q)).headI) ∈ ["INSERT", "UPDATE", "DELETE"]
    · rw [if_pos hdml]
      have hatt :
          (match Session.exec eng ((pyStrip q : String), ([] : Params)) s with
            | (Except.ok r, s1) =>
              (Response.page
                { tables := get_table_names schema, current_query := some "custom_sql"
                  sql_query := some (pyStrip q), sql_error := none
                  sql_success :=
                    some ("Запрос выполнен успешно. Затронуто строк: "
                      ++ toString r.rowcount) }, s1.commit)
            | (Except.error e, s1) =>
              (sqlErrorPage schema (pyStrip q) e, s1.rollback)).2.attempted =
            s.attempted ++ [((pyStrip q : String), ([] : Params))] := by
        unfold Session.exec
        cases eng ((pyStrip q : String), ([] : Params)) <;> rfl
      rw [hatt]
      refine iff_of_false (attempted_append_ne _ _) ?_
      simp only [List.mem_cons, List.not_mem_nil, or_false] at hdml
      rcases hdml with h | h | h <;> rw [h] <;> decide
    · rw [if_neg hdml]
      by_cases hdang : pyUpper ((pySplit (pyStrip q)).headI) ∈ dangerous_keywords
      · rw [if_pos hdang]
        exact iff_of_true rfl hdang
      · rw [if_neg hdang]
        have hatt :
            (match Session.exec eng ((pyStrip q : String), ([] : Params)) s with
              | (Except.ok _, s1) =>
                (Response.page
                  { tables := get_table_names schema, current_query := some "custom_sql"
                    sql_query := some (pyStrip q), sql_error := none
                    sql_success := some "Запрос выполнен успешно" }, s1.commit)
              | (Except.error e, s1) =>
                (sqlErrorPage schema (pyStrip q) e, s1.rollback)).2.attempted =
              s.attempted ++ [((pyStrip q : String), ([] : Params))] := by
          unfold Session.exec
          cases eng ((pyStrip q : String), ([] : Params)) <;> rfl
        rw [hatt]
        exact iff_of_false (attempted_append_ne _ _) hdang

/-- C3: the allow/deny decision of `execute_sql` depends only on the
uppercased first whitespace-delimited token: two nonempty queries with the
same uppercased first token either both reach the database or both are
denied (trace unchanged). -/
theorem execute_sql_branch_first_token_only (schema : Schema) (eng : Engine) (s : Session)
    (q1 q2 : String) (h1 : pyStrip q1 ≠ "") (h2 : pyStrip q2 ≠ "")
    (h : pyUpper ((pySplit (pyStrip q1)).headI) = pyUpper ((pySplit (pyStrip q2)).headI)) :
    ((execute_sql schema eng q1 s).2.attempted = s.attempted ↔
     (execute_sql schema eng q2 s).2.attempted = s.attempted) := by
  rw [execute_sql_attempted_iff schema eng q1 s h1,
    execute_sql_attempted_iff schema eng q2 s h2, h]

/-- Witness for C3 at `"drop table a"` versus `"DROP x"`. -/
theorem execute_sql_branch_first_token_only_witness :
    ((execute_sql demoSchema okEngine "drop table a" emptySession).2.attempted =
        emptySession.attempted ↔
     (execute_sql demoSchema okEngine "DROP x" emptySession).2.attempted =
        emptySession.attempted) :=
  execute_sql_branch_first_token_only demoSchema okEngine emptySession "drop table a" "DROP x"
    (by decide) (by decide) (by decide)

/-! ### Claim C8 -/

/-- C8: an empty or all-whitespace query is answered with the
"query may not be empty" page, the session (trace included) is unchanged
so nothing is executed, and the first-token classification is never
reached; moreover for any nonempty stripped query the token list the
classification indexes into is nonempty, so `split()[0]` cannot fail. -/
theorem execute_sql_empty_query_guard :
    (∀ (schema : Schema) (eng : Engine) (q : String) (s : Session), pyStrip q = "" →
      execute_sql schema eng q s =
        (Response.page
          { tables := get_table_names schema, current_query := some "custom_sql"
            sql_query := some "", sql_error := some "Запрос не может быть пустым"
            sql_success := none }, s)) ∧
    (∀ q : String, pyStrip q ≠ "" → pySplit (pyStrip (pyUpper (pyStrip q))) ≠ []) := by
  constructor
  · intro schema eng q s h
    simp only [execute_sql]
    rw [h]
    simp
  · intro q h
    rw [pySplit_pyStrip, pySplit_pyUpper, Ne, List.map_eq_nil_iff]
    exact pySplit_ne_nil_of_pyStrip_ne q h

/-- Witness for C8 at the all-whitespace query `"   "` and the nonempty
query `"update t set a = 1"`. -/
theorem execute_sql_empty_query_guard_witness :
    (execute_sql demoSchema okEngine "   " emptySession =
      (Response.page
        { tables := get_table_names demoSchema, current_query := some "custom_sql"
          sql_query := some "", sql_error := some "Запрос не может быть пустым"
          sql_success := none }, emptySession)) ∧
    pySplit (pyStrip (pyUpper (pyStrip "update t set a = 1"))) ≠ [] :=
  ⟨execute_sql_empty_query_guard.1 demoSchema okEngine "   " emptySession (by decide),
   execute_sql_empty_query_guard.2 "update t set a = 1" (by decide)⟩


/-! ### Claim C2 -/

/-- A map over an association list that only looks at the keys is
determined by the key list. -/
theorem map_key_fn {α β : Type} (g : String → α) (l l' : List (String × β))
    (h : l.map Prod.fst = l'.map Prod.fst) :
    l.map (fun p => g p.1) = l'.map (fun p => g p.1) := by
  have h1 : l.map (fun p => g p.1) = (l.map Prod.fst).map g := by
    rw [List.map_map]; rfl
  have h2 : l'.map (fun p => g p.1) = (l'.map Prod.fst).map g := by
    rw [List.map_map]; rfl
  rw [h1, h2, h]

/-- C2: in the INSERT/UPDATE/DELETE statements built by `add_record`,
`edit_record` and `delete_record`, the SQL text is a function of the table
name and the field names alone (two forms with the same keys yield the
same text, so no submitted value is ever concatenated into it), and every
user-supplied value is carried in the bound-parameter dict under its
`:key` placeholder name. -/
theorem crud_statements_bind_values_only :
    (∀ (t : String) (fd fd' : Params), fd.map Prod.fst = fd'.map Prod.fst →
      (insertStmtOf t fd).1 = (insertStmtOf t fd').1) ∧
    (∀ (t : String) (fd : Params), (insertStmtOf t fd).2 = fd) ∧
    (∀ (t : String) (fd fd' : Params) (pks pks' : List (String × String)),
      fd.map Prod.fst = fd'.map Prod.fst → pks.map Prod.fst = pks'.map Prod.fst →
      (updateStmtOf t fd pks).1 = (updateStmtOf t fd' pks').1) ∧
    (∀ (t : String) (fd : Params) (pks : List (String × String)),
      (updateStmtOf t fd pks).2 = fd ++ pks.map (fun p => (p.1 ++ "_pk", PValue.str p.2))) ∧
    (∀ (t : String) (pks pks' : List (String × String)),
      pks.map Prod.fst = pks'.map Prod.fst →
      (deleteStmtOf t pks).1 = (deleteStmtOf t pks').1) ∧
    (∀ (t : String) (pks : List (String × String)),
      (deleteStmtOf t pks).2 = pks.map (fun p => (p.1, PValue.str p.2))) := by
  refine ⟨?_, ?_, ?_, ?_, ?_, ?_⟩
  · intro t fd fd' h
    simp only [insertStmtOf]
    rw [map_key_fn (fun k => quoteId k) fd fd' h, map_key_fn (fun k => ":" ++ k) fd fd' h]
  · intro t fd
    rfl
  · intro t fd fd' pks pks' hf hp
    simp only [updateStmtOf]
    rw [map_key_fn (fun k => quoteId k ++ " = :" ++ k) fd fd' hf,
      map_key_fn (fun k => quoteId k ++ " = :" ++ k ++ "_pk") pks pks' hp]
  · intro t fd pks
    rfl
  · intro t pks pks' hp
    simp only [deleteStmtOf]
    rw [map_key_fn (fun k => quoteId k ++ " = :" ++ k) pks pks' hp]
  · intro t pks
    rfl

/-- Witness for C2: same keys with different values give identical SQL
texts, and the parameters are exactly the given values. -/
theorem crud_statements_bind_values_only_witness :
    ((insertStmtOf "t" [("a", PValue.str "x")]).1 =
      (insertStmtOf "t" [("a", PValue.null)]).1) ∧
    ((insertStmtOf "t" [("a", PValue.str "x")]).2 = [("a", PValue.str "x")]) ∧
    ((updateStmtOf "t" [("a", PValue.str "x")] [("id", "1")]).1 =
      (updateStmtOf "t" [("a", PValue.int 7)] [("id", "2")]).1) ∧
    ((updateStmtOf "t" [("a", PValue.str "x")] [("id", "1")]).2 =
      [("a", PValue.str "x")] ++ [("id", "1")].map (fun p => (p.1 ++ "_pk", PValue.str p.2))) ∧
    ((deleteStmtOf "t" [("id", "1")]).1 = (deleteStmtOf "t" [("id", "2")]).1) ∧
    ((deleteStmtOf "t" [("id", "1")]).2 = [("id", "1")].map (fun p => (p.1, PValue.str p.2))) :=
  ⟨crud_statements_bind_values_only.1 "t" [("a", PValue.str "x")] [("a", PValue.null)] rfl,
   crud_statements_bind_values_only.2.1 "t" [("a", PValue.str "x")],
   crud_statements_bind_values_only.2.2.1 "t" [("a", PValue.str "x")] [("a", PValue.int 7)]
     [("id", "1")] [("id", "2")] rfl rfl,
   crud_statements_bind_values_only.2.2.2.1 "t" [("a", PValue.str "x")] [("id", "1")],
   crud_statements_bind_values_only.2.2.2.2.1 "t" [("id", "1")] [("id", "2")] rfl,
   crud_statements_bind_values_only.2.2.2.2.2 "t" [("id", "1")]⟩

/-! ### Claim C4 -/

/-- The `pk_` extraction loop collects exactly the `pk_`-prefixed fields,
prefix stripped. -/
theorem extractPks_fst (l : List (String × String)) :
    (extractPks l).1 =
      (l.filter (fun p => p.1.startsWith "pk_")).map (fun p => (p.1.drop 3, p.2)) := by
  induction l with
  | nil => rfl
  | cons p rest ih =>
    simp only [extractPks]
    by_cases hp : p.1.startsWith "pk_" <;> simp [hp, ih, List.filter_cons]

/-- The `pk_` extraction loop leaves exactly the other fields in the form
dict. -/
theorem extractPks_snd (l : List (String × String)) :
    (extractPks l).2 = l.filter (fun p => !p.1.startsWith "pk_") := by
  induction l with
  | nil => rfl
  | cons p rest ih =>
    simp only [extractPks]
    by_cases hp : p.1.startsWith "pk_" <;> simp [hp, ih, List.filter_cons]

/-- C4: the UPDATE `edit_record` hands to the database has a WHERE clause
built from exactly the `pk_`-prefixed form fields (prefix stripped, each
an equality, AND-conjoined), a SET clause from exactly the remaining form
fields other than `table_name`, and its bound parameters carry `NULL` for
exactly the remaining fields submitted as the empty string. -/
theorem edit_record_clause_structure (schema : Schema) (eng : Engine) (t : String)
    (form : List (String × String)) (s : Session) (hmem : t ∈ get_table_names schema) :
    (edit_record schema eng t form s).2.attempted = s.attempted ++
      [("UPDATE " ++ quoteId t ++ " SET "
          ++ String.intercalate ", "
            (((delKey form "table_name").filter (fun p => !p.1.startsWith "pk_")).map
              (fun p => quoteId p.1 ++ " = :" ++ p.1))
          ++ " WHERE "
          ++ String.intercalate " AND "
            (((delKey form "table_name").filter (fun p => p.1.startsWith "pk_")).map
              (fun p => quoteId (p.1.drop 3) ++ " = :" ++ p.1.drop 3 ++ "_pk")),
        ((delKey form "table_name").filter (fun p => !p.1.startsWith "pk_")).map
          (fun p => (p.1, if p.2 = "" then PValue.null else PValue.str p.2))
        ++ ((delKey form "table_name").filter (fun p => p.1.startsWith "pk_")).map
          (fun p => (p.1.drop 3 ++ "_pk", PValue.str p.2)))] := by
  simp only [edit_record]
  rw [if_pos hmem]
  have hatt : ∀ st : Stmt,
      (match Session.exec eng st s with
        | (Except.ok _, s1) =>
          (Response.redirect
            ("/view?table_name=" ++ t
              ++ "&message=Запись успешно обновлена&message_type=success"), s1.commit)
        | (Except.error e, s1) =>
          (Response.redirect
            ("/view?table_name=" ++ t ++ "&message=Ошибка при обновлении записи: " ++ e
              ++ "&message_type=danger"), s1.rollback)).2.attempted = s.attempted ++ [st] := by
    intro st
    unfold Session.exec
    cases eng st <;> rfl
  rw [hatt]
  congr 1
  rw [extractPks_fst, extractPks_snd]
  simp only [updateStmtOf, nullifyEmpty, List.map_map]
  rfl

/-- Witness for C4 at a concrete form with a `pk_` field, an emptied field
and an ordinary field. -/
theorem edit_record_clause_structure_witness :
    (edit_record demoSchema okEngine "t"
        [("table_name", "t"), ("pk_id", "5"), ("name", ""), ("addr", "x")] emptySession
      ).2.attempted = emptySession.attempted ++
      [("UPDATE " ++ quoteId "t" ++ " SET "
          ++ String.intercalate ", "
            (((delKey [("table_name", "t"), ("pk_id", "5"), ("name", ""), ("addr", "x")]
                "table_name").filter (fun p => !p.1.startsWith "pk_")).map
              (fun p => quoteId p.1 ++ " = :" ++ p.1))
          ++ " WHERE "
          ++ String.intercalate " AND "
            (((delKey [("table_name", "t"), ("pk_id", "5"), ("name", ""), ("addr", "x")]
                "table_name").filter (fun p => p.1.startsWith "pk_")).map
              (fun p => quoteId (p.1.drop 3) ++ " = :" ++ p.1.drop 3 ++ "_pk")),
        ((delKey [("table_name", "t"), ("pk_id", "5"), ("name", ""), ("addr", "x")]
            "table_name").filter (fun p => !p.1.startsWith "pk_")).map
          (fun p => (p.1, if p.2 = "" then PValue.null else PValue.str p.2))
        ++ ((delKey [("table_name", "t"), ("pk_id", "5"), ("name", ""), ("addr", "x")]
            "table_name").filter (fun p => p.1.startsWith "pk_")).map
          (fun p => (p.1.drop 3 ++ "_pk", PValue.str p.2)))] :=
  edit_record_clause_structure demoSchema okEngine "t"
    [("table_name", "t"), ("pk_id", "5"), ("name", ""), ("addr", "x")] emptySession (by decide)


/-! ### Claim C9 -/

/-- C9: whenever the database raises a `SQLAlchemyError` under
`execute_sql`, `add_record`, `edit_record` or `delete_record`, the handler
rolls the transaction back — the committed state is unchanged and the
pending work is discarded — and returns a normal response carrying an
error message (the SQL error page, or a redirect with
`message_type=danger`) instead of propagating the exception. -/
theorem sqlalchemy_error_rolls_back :
    (∀ (schema : Schema) (eng : Engine) (q : String) (s : Session) (e : String),
      pyStrip q ≠ "" →
      pyUpper ((pySplit (pyStrip q)).headI) ∉ dangerous_keywords →
      eng ((pyStrip q : String), ([] : Params)) = Except.error e →
      (execute_sql schema eng q s).1 = sqlErrorPage schema (pyStrip q) e ∧
      (execute_sql schema eng q s).2.committedLog = s.committedLog ∧
      (execute_sql schema eng q s).2.pendingLog = []) ∧
    (∀ (schema : Schema) (eng : Engine) (lib : PyLib) (t : String)
      (form : List (String × String)) (s : Session) (e : String) (table : TableMeta)
      (fd : Params),
      schema.find? (fun tb => tb.name == t) = some table →
      t ∈ get_table_names schema →
      convertForm lib table.columns
        ((delKey form "table_name").map (fun p => (p.1, PValue.str p.2))) = Except.ok fd →
      eng (insertStmtOf t fd) = Except.error e →
      (add_record schema eng lib t form s).1 =
        Response.redirect ("/view?table_name=" ++ t
          ++ "&message=Ошибка при добавлении записи: " ++ e ++ "&message_type=danger") ∧
      (add_record schema eng lib t form s).2.committedLog = s.committedLog ∧
      (add_record schema eng lib t form s).2.pendingLog = []) ∧
    (∀ (schema : Schema) (eng : Engine) (t : String) (form : List (String × String))
      (s : Session) (e : String),
      t ∈ get_table_names schema →
      eng (updateStmtOf t (nullifyEmpty (extractPks (delKey form "table_name")).2)
        (extractPks (delKey form "table_name")).1) = Except.error e →
      (edit_record schema eng t form s).1 =
        Response.redirect ("/view?table_name=" ++ t
          ++ "&message=Ошибка при обновлении записи: " ++ e ++ "&message_type=danger") ∧
      (edit_record schema eng t form s).2.committedLog = s.committedLog ∧
      (edit_record schema eng t form s).2.pendingLog = []) ∧
    (∀ (schema : Schema) (eng : Engine) (t : String) (form : List (String × String))
      (s : Session) (e : String),
      t ∈ get_table_names schema →
      eng (deleteStmtOf t (collectPks (delKey form "table_name"))) = Except.error e →
      (delete_record schema eng t form s).1 =
        Response.redirect ("/view?table_name=" ++ t
          ++ "&message=Ошибка при удалении записи: " ++ e ++ "&message_type=danger") ∧
      (delete_record schema eng t form s).2.committedLog = s.committedLog ∧
      (delete_record schema eng t form s).2.pendingLog = []) := by
  refine ⟨?_, ?_, ?_, ?_⟩
  · intro schema eng q s e h1 hnd heng
    simp only [execute_sql]
    rw [if_neg h1, queryType_eq_upper_headI]
    by_cases hsel : pyUpper ((pySplit (pyStrip q)).headI) = "SELECT"
    · rw [if_pos hsel]
      unfold execute_custom_query
      rw [exec_error eng ((pyStrip q : String), ([] : Params)) s e heng]
      exact ⟨rfl, rfl, rfl⟩
    · rw [if_neg hsel]
      by_cases hdml : pyUpper ((pySplit (pyStrip q)).headI) ∈ ["INSERT", "UPDATE", "DELETE"]
      · rw [if_pos hdml, exec_error eng ((pyStrip q : String), ([] : Params)) s e heng]
        exact ⟨rfl, rfl, rfl⟩
      · rw [if_neg hdml, if_neg hnd,
          exec_error eng ((pyStrip q : String), ([] : Params)) s e heng]
        exact ⟨rfl, rfl, rfl⟩
  · intro schema eng lib t form s e table fd hfind hmem hconv heng
    simp only [add_record]
    rw [if_pos hmem, hfind]
    simp only [hconv, exec_error eng (insertStmtOf t fd) s e heng]
    refine ⟨?_, ?_, ?_⟩ <;> first | rfl | trivial
  · intro schema eng t form s e hmem heng
    simp only [edit_record]
    rw [if_pos hmem, exec_error eng _ s e heng]
    exact ⟨rfl, rfl, rfl⟩
  · intro schema eng t form s e hmem heng
    simp only [delete_record]
    rw [if_pos hmem, exec_error eng _ s e heng]
    exact ⟨rfl, rfl, rfl⟩

/-- Witness for C9: a failing engine under each of the four handlers. -/
theorem sqlalchemy_error_rolls_back_witness :
    ((execute_sql demoSchema failEngine "UPDATE t SET a = 1" emptySession).1 =
        sqlErrorPage demoSchema (pyStrip "UPDATE t SET a = 1") "boom" ∧
      (execute_sql demoSchema failEngine "UPDATE t SET a = 1" emptySession).2.committedLog =
        emptySession.committedLog ∧
      (execute_sql demoSchema failEngine "UPDATE t SET a = 1" emptySession).2.pendingLog = []) ∧
    ((add_record demoSchema failEngine demoLib "t" [("table_name", "t")] emptySession).1 =
        Response.redirect ("/view?table_name=" ++ "t"
          ++ "&message=Ошибка при добавлении записи: " ++ "boom" ++ "&message_type=danger") ∧
      (add_record demoSchema failEngine demoLib "t" [("table_name", "t")]
        emptySession).2.committedLog = emptySession.committedLog ∧
      (add_record demoSchema failEngine demoLib "t" [("table_name", "t")]
        emptySession).2.pendingLog = []) ∧
    ((edit_record demoSchema failEngine "t" [("table_name", "t"), ("pk_id", "1"), ("a", "")]
        emptySession).1 =
        Response.redirect ("/view?table_name=" ++ "t"
          ++ "&message=Ошибка при обновлении записи: " ++ "boom" ++ "&message_type=danger") ∧
      (edit_record demoSchema failEngine "t" [("table_name", "t"), ("pk_id", "1"), ("a", "")]
        emptySession).2.committedLog = emptySession.committedLog ∧
      (edit_record demoSchema failEngine "t" [("table_name", "t"), ("pk_id", "1"), ("a", "")]
        emptySession).2.pendingLog = []) ∧
    ((delete_record demoSchema failEngine "t" [("table_name", "t"), ("pk_id", "1")]
        emptySession).1 =
        Response.redirect ("/view?table_name=" ++ "t"
          ++ "&message=Ошибка при удалении записи: " ++ "boom" ++ "&message_type=danger") ∧
      (delete_record demoSchema failEngine "t" [("table_name", "t"), ("pk_id", "1")]
        emptySession).2.committedLog = emptySession.committedLog ∧
      (delete_record demoSchema failEngine "t" [("table_name", "t"), ("pk_id", "1")]
        emptySession).2.pendingLog = []) :=
  ⟨sqlalchemy_error_rolls_back.1 demoSchema failEngine "UPDATE t SET a = 1" emptySession "boom"
     (by decide) (by decide) rfl,
   sqlalchemy_error_rolls_back.2.1 demoSchema failEngine demoLib "t" [("table_name", "t")]
     emptySession "boom" demoTable [] rfl (by decide) rfl rfl,
   sqlalchemy_error_rolls_back.2.2.1 demoSchema failEngine "t"
     [("table_name", "t"), ("pk_id", "1"), ("a", "")] emptySession "boom" (by decide) rfl,
   sqlalchemy_error_rolls_back.2.2.2 demoSchema failEngine "t"
     [("table_name", "t"), ("pk_id", "1")] emptySession "boom" (by decide) rfl⟩


/-! ### Claim C5 -/

/-- A successful `columnSchemaOf` reports the reflected metadata of the column
and foreign-key information faithfully. -/
theorem columnSchemaOf_ok (eng : Engine) (fks : List FKMeta) (c : ColumnMeta) (s : Session)
    (ci : ColumnSchemaOut) (s1 : Session)
    (h : columnSchemaOf eng fks c s = (Except.ok ci, s1)) :
    columnReported eng fks ci c := by
  unfold columnSchemaOf at h
  unfold columnReported
  cases hfind : fks.find? (fun fk => fk.constrained_columns.contains c.name) with
  | none =>
    rw [hfind] at h
    simp only [Prod.mk.injEq] at h
    obtain ⟨hr, hs⟩ := h
    injection hr with hr'
    subst hr'
    exact ⟨rfl, rfl, rfl, rfl, rfl, rfl, rfl, rfl⟩
  | some fk =>
    rw [hfind] at h
    dsimp only at h
    cases hrc : fk.referred_columns with
    | nil =>
      rw [hrc] at h
      simp at h
    | cons tc rest =>
      rw [hrc] at h
      dsimp only at h
      cases heng : eng ((fkValuesQuery tc fk.referred_table : String), ([] : Params)) with
      | error e =>
        rw [exec_error eng _ s e heng] at h
        simp at h
      | ok res =>
        rw [exec_ok eng _ s res heng] at h
        simp only [Prod.mk.injEq] at h
        obtain ⟨hr, hs⟩ := h
        injection hr with hr'
        subst hr'
        exact ⟨rfl, rfl, rfl, rfl, rfl, rfl, rfl, tc, rest, res, hrc, heng, rfl⟩

/-- A failing `columnSchemaOf` never fails with an `ok` payload. -/
theorem columnSchemaOf_error_shape (eng : Engine) (fks : List FKMeta) (c : ColumnMeta)
    (s : Session) (r : SchemaResponse) (s1 : Session)
    (h : columnSchemaOf eng fks c s = (Except.error r, s1)) :
    ∀ out, r ≠ SchemaResponse.ok out := by
  unfold columnSchemaOf at h
  cases hfind : fks.find? (fun fk => fk.constrained_columns.contains c.name) with
  | none =>
    rw [hfind] at h
    simp at h
  | some fk =>
    rw [hfind] at h
    dsimp only at h
    cases hrc : fk.referred_columns with
    | nil =>
      rw [hrc] at h
      simp only [Prod.mk.injEq] at h
      obtain ⟨hr, -⟩ := h
      injection hr with hr'
      subst hr'
      intro out hcon
      cases hcon
    | cons tc rest =>
      rw [hrc] at h
      dsimp only at h
      cases heng : eng ((fkValuesQuery tc fk.referred_table : String), ([] : Params)) with
      | error e =>
        rw [exec_error eng _ s e heng] at h
        simp only [Prod.mk.injEq] at h
        obtain ⟨hr, -⟩ := h
        injection hr with hr'
        subst hr'
        intro out hcon
        cases hcon
      | ok res =>
        rw [exec_ok eng _ s res heng] at h
        simp at h

/-- A successful column loop reports every column of the table, in
order. -/
theorem columnsSchemaOf_ok (eng : Engine) (fks : List FKMeta) :
    ∀ (cols : List ColumnMeta) (s : Session) (outs : List ColumnSchemaOut) (s1 : Session),
      columnsSchemaOf eng fks cols s = (Except.ok outs, s1) →
      List.Forall₂ (columnReported eng fks) outs cols := by
  intro cols
  induction cols with
  | nil =>
    intro s outs s1 h
    unfold columnsSchemaOf at h
    simp only [Prod.mk.injEq] at h
    obtain ⟨hr, -⟩ := h
    injection hr with hr'
    subst hr'
    exact List.Forall₂.nil
  | cons c cs ih =>
    intro s outs s1 h
    unfold columnsSchemaOf at h
    cases h1 : columnSchemaOf eng fks c s with
    | mk r1 sa =>
      rw [h1] at h
      cases r1 with
      | error r =>
        simp at h
      | ok ci =>
        dsimp only at h
        cases h2 : columnsSchemaOf eng fks cs sa with
        | mk r2 sb =>
          rw [h2] at h
          cases r2 with
          | error r =>
            simp at h
          | ok rest =>
            simp only [Prod.mk.injEq] at h
            obtain ⟨hr, -⟩ := h
            injection hr with hr'
            subst hr'
            exact List.Forall₂.cons (columnSchemaOf_ok eng fks c s ci sa h1) (ih sa rest sb h2)

/-- A failing column loop never fails with an `ok` payload. -/
theorem columnsSchemaOf_error_shape (eng : Engine) (fks : List FKMeta) :
    ∀ (cols : List ColumnMeta) (s : Session) (r : SchemaResponse) (s1 : Session),
      columnsSchemaOf eng fks cols s = (Except.error r, s1) →
      ∀ out, r ≠ SchemaResponse.ok out := by
  intro cols
  induction cols with
  | nil =>
    intro s r s1 h
    unfold columnsSchemaOf at h
    simp at h
  | cons c cs ih =>
    intro s r s1 h
    unfold columnsSchemaOf at h
    cases h1 : columnSchemaOf eng fks c s with
    | mk r1 sa =>
      rw [h1] at h
      cases r1 with
      | error rr =>
        simp only [Prod.mk.injEq] at h
        obtain ⟨hr, -⟩ := h
        injection hr with hr'
        subst hr'
        exact columnSchemaOf_error_shape eng fks c s rr sa h1
      | ok ci =>
        dsimp only at h
        cases h2 : columnsSchemaOf eng fks cs sa with
        | mk r2 sb =>
          rw [h2] at h
          cases r2 with
          | error rr =>
            simp only [Prod.mk.injEq] at h
            obtain ⟨hr, -⟩ := h
            injection hr with hr'
            subst hr'
            exact ih sa rr sb h2
          | ok rest =>
            simp at h

/-- C5: for a table name outside the reflected list the schema endpoint
fails with HTTP 404; for a reflected table it returns, per column of that
table, the column name, type, nullability, primary-key flag and — for
foreign-key columns — the referred table, referred column and existing
values, plus the primary-key and required-column names of the table. -/
theorem get_table_schema_reports_metadata :
    (∀ (schema : Schema) (eng : Engine) (t : String) (s : Session),
      t ∉ get_table_names schema →
      get_table_schema schema eng t s =
        (SchemaResponse.httpError 404 ("Таблица " ++ t ++ " не найдена"), s)) ∧
    (∀ (schema : Schema) (eng : Engine) (t : String) (s : Session) (table : TableMeta)
      (r : TableSchemaOut) (s1 : Session),
      schema.find? (fun tb => tb.name == t) = some table →
      get_table_schema schema eng t s = (SchemaResponse.ok r, s1) →
      r.table_name = t ∧
      r.primary_keys = (table.columns.filter (fun c => c.primary_key)).map (fun c => c.name) ∧
      r.required_columns =
        (table.columns.filter (fun c => !c.nullable && !c.hasDefault)).map (fun c => c.name) ∧
      List.Forall₂ (columnReported eng table.fks) r.columns table.columns) := by
  constructor
  · intro schema eng t s h
    simp only [get_table_schema]
    rw [if_neg h]
  · intro schema eng t s table r s1 hfind hres
    have hname : table.name = t := by
      have hp := List.find?_some hfind
      simpa using hp
    have hmem : t ∈ get_table_names schema := by
      unfold get_table_names
      rw [← hname]
      exact List.mem_map_of_mem _ (List.mem_of_find?_eq_some hfind)
    have hinfo : get_table_info schema t =
        Except.ok
          { primary_keys := (table.columns.filter (fun c => c.primary_key)).map (fun c => c.name)
            required_columns :=
              (table.columns.filter (fun c => !c.nullable && !c.hasDefault)).map (fun c => c.name)
            columns := table.columns.map (fun c => c.name) } := by
      unfold get_table_info
      rw [hfind]
    simp only [get_table_schema] at hres
    rw [if_pos hmem, hinfo] at hres
    simp only [hfind] at hres
    cases hcols : columnsSchemaOf eng table.fks table.columns s with
    | mk rc sc =>
      rw [hcols] at hres
      cases rc with
      | error rr =>
        simp only at hres
        simp only [Prod.mk.injEq] at hres
        obtain ⟨hr, -⟩ := hres
        exact absurd hr (fun hh =>
          columnsSchemaOf_error_shape eng table.fks table.columns s rr sc hcols r hh)
      | ok outs =>
        simp only [Prod.mk.injEq] at hres
        obtain ⟨hr, -⟩ := hres
        injection hr with hr'
        subst hr'
        exact ⟨rfl, rfl, rfl, columnsSchemaOf_ok eng table.fks table.columns s outs sc hcols⟩


/-- Witness for C5: the 404 branch at an unknown table, and the reported
column metadata for the demo foreign-key table. -/
theorem get_table_schema_reports_metadata_witness :
    (get_table_schema demoFkSchema okEngine "missing" emptySession =
      (SchemaResponse.httpError 404 ("Таблица " ++ "missing" ++ " не найдена"),
       emptySession)) ∧
    List.Forall₂ (columnReported okEngine demoFkTable.fks)
      [{ name := "id", type := "INTEGER", input_type := "number", is_primary_key := true
         is_nullable := false, has_default := false, is_foreign_key := false
         foreign_key_info := none },
       { name := "client", type := "VARCHAR(20)", input_type := "text"
         is_primary_key := false, is_nullable := true, has_default := false
         is_foreign_key := true
         foreign_key_info :=
           some { target_table := "clients", target_column := "id", values := ["1"] } }]
      demoFkTable.columns :=
  ⟨get_table_schema_reports_metadata.1 demoFkSchema okEngine "missing" emptySession (by decide),
   (get_table_schema_reports_metadata.2 demoFkSchema okEngine "orders" emptySession demoFkTable
      { table_name := "orders", primary_keys := ["id"], required_columns := ["id"]
        columns :=
          [{ name := "id", type := "INTEGER", input_type := "number", is_primary_key := true
             is_nullable := false, has_default := false, is_foreign_key := false
             foreign_key_info := none },
           { name := "client", type := "VARCHAR(20)", input_type := "text"
             is_primary_key := false, is_nullable := true, has_default := false
             is_foreign_key := true
             foreign_key_info :=
               some { target_table := "clients", target_column := "id", values := ["1"] } }] }
      { committedLog := []
        pendingLog := [("SELECT DISTINCT \"id\" FROM \"clients\"", [])]
        attempted := [("SELECT DISTINCT \"id\" FROM \"clients\"", [])] }
      rfl (by decide)).2.2.2⟩

/-! ### Claim C6 -/

/-- The helper `execute_custom_query` always hands exactly its text (with no bound
parameters) to the database. -/
theorem custom_query_attempted (eng : Engine) (q : String) (s : Session) :
    (execute_custom_query eng q s).2.attempted =
      s.attempted ++ [((q : String), ([] : Params))] := by
  unfold execute_custom_query
  cases heng : eng ((q : String), ([] : Params)) with
  | ok r => rw [exec_ok eng _ s r heng]
  | error e => rw [exec_error eng _ s e heng]

/-- C6: the reporting layer registers exactly five routes; each handler
executes one constant SQL text, independent of the request (and of the
session and schema), and renders the tabular result of the engine: the column
list plus the rows, each row zipped with the column names. -/
theorem report_queries_fixed :
    reportRoutes.length = 5 ∧
    (∀ (req : Request) (schema : Schema) (eng : Engine) (s : Session),
      (run_query1 req schema eng s).2.attempted =
        s.attempted ++ [((query1Text : String), ([] : Params))] ∧
      (run_query2 req schema eng s).2.attempted =
        s.attempted ++ [((query2Text : String), ([] : Params))] ∧
      (run_query3 req schema eng s).2.attempted =
        s.attempted ++ [((query3Text : String), ([] : Params))] ∧
      (run_query4 req schema eng s).2.attempted =
        s.attempted ++ [((query4Text : String), ([] : Params))] ∧
      (run_query5 req schema eng s).2.attempted =
        s.attempted ++ [((query5Text : String), ([] : Params))]) ∧
    (∀ (req : Request) (schema : Schema) (eng : Engine) (s : Session) (res : QueryResult),
      (eng ((query1Text : String), ([] : Params)) = Except.ok res →
        (run_query1 req schema eng s).1 =
          Response.page
            { tables := get_table_names schema, current_query := some "query1"
              columns := res.columns
              data := res.rows.map (fun row => res.columns.zip row)
              query_title := some "Клиенты с задолженностью по более чем 1 услуге" }) ∧
      (eng ((query2Text : String), ([] : Params)) = Except.ok res →
        (run_query2 req schema eng s).1 =
          Response.page
            { tables := get_table_names schema, current_query := some "query2"
              columns := res.columns
              data := res.rows.map (fun row => res.columns.zip row)
              query_title := some "Коммунальные услуги с тарифами и объемами потребления" }) ∧
      (eng ((query3Text : String), ([] : Params)) = Except.ok res →
        (run_query3 req schema eng s).1 =
          Response.page
            { tables := get_table_names schema, current_query := some "query3"
              columns := res.columns
              data := res.rows.map (fun row => res.columns.zip row)
              query_title := some "Клиенты с потреблением выше среднего за последний месяц" }) ∧
      (eng ((query4Text : String), ([] : Params)) = Except.ok res →
        (run_query4 req schema eng s).1 =
          Response.page
            { tables := get_table_names schema, current_query := some "query4"
              columns := res.columns
              data := res.rows.map (fun row => res.columns.zip row)
              query_title :=
                some "Ведомость оплаты коммунальных услуг по адресу \x27ул. Пушкина\x27" }) ∧
      (eng ((query5Text : String), ([] : Params)) = Except.ok res →
        (run_query5 req schema eng s).1 =
          Response.page
            { tables := get_table_names schema, current_query := some "query5"
              columns := res.columns
              data := res.rows.map (fun row => res.columns.zip row)
              query_title := some "Задолженность по коммунальным услугам по месяцам" })) := by
  refine ⟨rfl, ?_, ?_⟩
  · intro req schema eng s
    refine ⟨?_, ?_, ?_, ?_, ?_⟩
    · have h := custom_query_attempted eng query1Text s
      cases hq : execute_custom_query eng query1Text s with
      | mk r s1 =>
        rw [hq] at h
        cases r with
        | ok p =>
          obtain ⟨cols, data⟩ := p
          simp only [run_query1, hq]
          exact h
        | error e =>
          simp only [run_query1, hq]
          exact h
    · have h := custom_query_attempted eng query2Text s
      cases hq : execute_custom_query eng query2Text s with
      | mk r s1 =>
        rw [hq] at h
        cases r with
        | ok p =>
          obtain ⟨cols, data⟩ := p
          simp only [run_query2, hq]
          exact h
        | error e =>
          simp only [run_query2, hq]
          exact h
    · have h := custom_query_attempted eng query3Text s
      cases hq : execute_custom_query eng query3Text s with
      | mk r s1 =>
        rw [hq] at h
        cases r with
        | ok p =>
          obtain ⟨cols, data⟩ := p
          simp only [run_query3, hq]
          exact h
        | error e =>
          simp only [run_query3, hq]
          exact h
    · have h := custom_query_attempted eng query4Text s
      cases hq : execute_custom_query eng query4Text s with
      | mk r s1 =>
        rw [hq] at h
        cases r with
        | ok p =>
          obtain ⟨cols, data⟩ := p
          simp only [run_query4, hq]
          exact h
        | error e =>
          simp only [run_query4, hq]
          exact h
    · have h := custom_query_attempted eng query5Text s
      cases hq : execute_custom_query eng query5Text s with
      | mk r s1 =>
        rw [hq] at h
        cases r with
        | ok p =>
          obtain ⟨cols, data⟩ := p
          simp only [run_query5, hq]
          exact h
        | error e =>
          simp only [run_query5, hq]
          exact h
  · intro req schema eng s res
    refine ⟨?_, ?_, ?_, ?_, ?_⟩ <;> intro heng
    · simp only [run_query1]
      unfold execute_custom_query
      rw [exec_ok eng _ s res heng]
    · simp only [run_query2]
      unfold execute_custom_query
      rw [exec_ok eng _ s res heng]
    · simp only [run_query3]
      unfold execute_custom_query
      rw [exec_ok eng _ s res heng]
    · simp only [run_query4]
      unfold execute_custom_query
      rw [exec_ok eng _ s res heng]
    · simp only [run_query5]
      unfold execute_custom_query
      rw [exec_ok eng _ s res heng]

/-- Witness for C6: the five reports on the demo schema with the
one-row engine. -/
theorem report_queries_fixed_witness :
    reportRoutes.length = 5 ∧
    (run_query1 demoRequest demoSchema okEngine emptySession).2.attempted =
      emptySession.attempted ++ [((query1Text : String), ([] : Params))] ∧
    (run_query1 demoRequest demoSchema okEngine emptySession).1 =
      Response.page
        { tables := get_table_names demoSchema, current_query := some "query1"
          columns := ({ columns := ["id"], rows := [["1"]], rowcount := 1 } : QueryResult).columns
          data :=
            ({ columns := ["id"], rows := [["1"]], rowcount := 1 } : QueryResult).rows.map
              (fun row =>
                ({ columns := ["id"], rows := [["1"]], rowcount := 1 } : QueryResult).columns.zip
                  row)
          query_title := some "Клиенты с задолженностью по более чем 1 услуге" } ∧
    (run_query5 demoRequest demoSchema okEngine emptySession).1 =
      Response.page
        { tables := get_table_names demoSchema, current_query := some "query5"
          columns := ({ columns := ["id"], rows := [["1"]], rowcount := 1 } : QueryResult).columns
          data :=
            ({ columns := ["id"], rows := [["1"]], rowcount := 1 } : QueryResult).rows.map
              (fun row =>
                ({ columns := ["id"], rows := [["1"]], rowcount := 1 } : QueryResult).columns.zip
                  row)
          query_title := some "Задолженность по коммунальным услугам по месяцам" } :=
  ⟨report_queries_fixed.1,
   (report_queries_fixed.2.1 demoRequest demoSchema okEngine emptySession).1,
   (report_queries_fixed.2.2 demoRequest demoSchema okEngine emptySession
      { columns := ["id"], rows := [["1"]], rowcount := 1 }).1 rfl,
   (report_queries_fixed.2.2 demoRequest demoSchema okEngine emptySession
      { columns := ["id"], rows := [["1"]], rowcount := 1 }).2.2.2.2 rfl⟩

/-! ### Claim C7 -/

/-- C7: every session acquired through the request-scoped provider is
released: the session opened on entry is closed when the scope ends, for
every body — including one that raises (`Except.error`) — and the outcome
of the body is passed through. -/
theorem get_db_closes_session :
    ∀ (E A : Type) (body : Nat → Except E A) (log : SessionLog),
      (DatabaseManager.get_db body log).2.openedIds =
        log.openedIds ++ [log.openedIds.length] ∧
      (DatabaseManager.get_db body log).2.closedIds =
        log.closedIds ++ [log.openedIds.length] ∧
      (DatabaseManager.get_db body log).1 = body log.openedIds.length := by
  intro E A body log
  exact ⟨rfl, rfl, rfl⟩

/-! ### Claim C10 -/

/-- C10: `/view` queries the rows of a table only when the requested name is a
member of the reflected table list: any executed statement implies
membership, and for `None` or a non-member name the page is rendered with
empty columns, data, primary keys and required columns, the session
untouched. -/
theorem show_tables_guards_table_query :
    (∀ (schema : Schema) (eng : Engine) (tn : Option String) (m mt : Option String)
      (s : Session),
      (show_tables schema eng tn m mt s).2.attempted ≠ s.attempted →
      ∃ t, tn = some t ∧ t ∈ get_table_names schema) ∧
    (∀ (schema : Schema) (eng : Engine) (m mt : Option String) (s : Session),
      show_tables schema eng none m mt s =
        (Response.page
          { tables := get_table_names schema, current_table := none, columns := []
            data := [], primary_keys := [], required_columns := []
            message := m, message_type := mt }, s)) ∧
    (∀ (schema : Schema) (eng : Engine) (t : String) (m mt : Option String) (s : Session),
      t ∉ get_table_names schema →
      show_tables schema eng (some t) m mt s =
        (Response.page
          { tables := get_table_names schema, current_table := some t, columns := []
            data := [], primary_keys := [], required_columns := []
            message := m, message_type := mt }, s)) := by
  refine ⟨?_, ?_, ?_⟩
  · intro schema eng tn m mt s hne
    cases tn with
    | none => exact absurd rfl hne
    | some t =>
      by_cases hc : t ≠ "" ∧ t ∈ get_table_names schema
      · exact ⟨t, rfl, hc.2⟩
      · simp only [show_tables] at hne
        rw [if_neg hc] at hne
        exact absurd rfl hne
  · intro schema eng m mt s
    rfl
  · intro schema eng t m mt s h
    simp only [show_tables]
    rw [if_neg (fun hc => h hc.2)]

/-- Witness for C10: the demo table is queried (so its name is a member),
and an unknown name renders the empty page. -/
theorem show_tables_guards_table_query_witness :
    (∃ t, (some "t" : Option String) = some t ∧ t ∈ get_table_names demoSchema) ∧
    show_tables demoSchema okEngine (some "missing") none none emptySession =
      (Response.page
        { tables := get_table_names demoSchema, current_table := some "missing", columns := []
          data := [], primary_keys := [], required_columns := []
          message := none, message_type := none }, emptySession) :=
  ⟨show_tables_guards_table_query.1 demoSchema okEngine (some "t") none none emptySession
     (by decide),
   show_tables_guards_table_query.2.2 demoSchema okEngine "missing" none none emptySession
     (by decide)⟩


end WebForDb

